import Mathlib

/-!
# Verification of the orpyus chord core

A shallow embedding, in Lean 4, of the chord/interval core of the orpyus
repository (`src/src/intervals.py`, `src/src/chords.py`), together with
theorems settling the specification claims about it.

Conventions of the embedding:

* Python dicts with integer keys (`ChordFactors`) are association lists
  `List (Nat × Int)`; the code keeps them key-sorted (`ChordFactors.__add__`
  re-sorts), and dict equality is order-insensitive item equality.
* `IntervalList` values used as registry keys are represented by their sorted
  lists of semitone values: both the hash (`hash(tuple(self.sorted()))`,
  where `Interval.__hash__` is `hash(self.value)`) and list equality
  (`Interval.__eq__` compares values only) are value-based.
* Fallible Python code (assertions, `KeyError`, `AttributeError`, `NameError`)
  is modelled with `Except String`; the error strings name the Python failure.
* Code of the repository that is not under `src/` (`qualities.py`,
  `notes.py`, `util.py`, `parsing.py`) is modelled from the specification;
  each such definition carries a doc comment starting `Modelled from the
  spec:`.  Everything else is translated from the source files.
-/

namespace Orpyus

set_option maxRecDepth 100000

/-! ## Interval tables (src/src/intervals.py, lines 610-640) -/

/-- `default_interval_degrees`: the degree assumed for each semitone value
mod 12 (`intervals.py` lines 619-628); 6 semitones map to degree 5
(diminished-fifth convention). -/
def defaultIntervalDegrees (md : Nat) : Nat :=
  if md = 0 then 1
  else if md ≤ 2 then 2
  else if md ≤ 4 then 3
  else if md = 5 then 4
  else if md ≤ 7 then 5
  else if md ≤ 9 then 6
  else 7

/-- `default_degree_intervals`: canonical semitone value of each degree 1-7
(`intervals.py` lines 631-640). -/
def defaultDegreeIntervals (deg : Nat) : Int :=
  if deg = 1 then 0
  else if deg = 2 then 2
  else if deg = 3 then 4
  else if deg = 4 then 5
  else if deg = 5 then 7
  else if deg = 6 then 9
  else 11

/-! ## Interval construction with an explicit degree
(`Interval.__init__`, src/src/intervals.py lines 13-77) -/

/-- The data computed by a successful `Interval.__init__`. -/
structure PyInterval where
  value : Int
  mod : Nat
  octaveSpan : Nat
  degree : Int
  extendedDegree : Int
  deriving Repr, DecidableEq

/-- Message of the `assert degree > 0` at `intervals.py` line 48. -/
def degreePositiveMsg : String := "Interval degree must be non-negative"

/-- Message of the unison-degree assert at `intervals.py` line 55. -/
def unisonDegreeMsg : String :=
  "Degree of a unison (mod12) interval can never be anything but 1"

/-- Message of the unison extended-degree assert at `intervals.py` line 56. -/
def unisonExtendedMsg : String :=
  "Extended degree of a unison (mod12) interval must (-1) mod to 0"

/-- Message of the bare `assert 0 < self.degree < 8` at `intervals.py`
line 57. -/
def degreeRangeMsg : String := "assert 0 < self.degree < 8"

/-- Message of the octave-off `ValueError` at `intervals.py` lines 69-70. -/
def octaveOffMsg : String :=
  "appears to be an octave up or down from default degree"

/-- Message of the too-far `ValueError` at `intervals.py` lines 73-74. -/
def tooFarMsg : String := "too far from default degree"

/-- `Interval.__init__(value, degree)` (`intervals.py` lines 13-77): width,
octave span and mod are taken from the absolute value; a supplied degree is
validated by the asserts of lines 48-57 and then compared against the default
degree (mod-table degree plus 7 per octave spanned); a distance of at most 2
is accepted, a distance of 8, 9 or 10 raises the explicit octave-confusion
`ValueError`, anything else the too-far `ValueError`. -/
def mkInterval (value : Int) (degreeArg : Option Int) : Except String PyInterval :=
  let width := value.natAbs
  let octaveSpan := width / 12
  let md := width % 12
  match degreeArg with
  | none =>
    let deg : Int := defaultIntervalDegrees md
    .ok ⟨value, md, octaveSpan, deg, deg + 7 * octaveSpan⟩
  | some degree =>
    if ¬ 0 < degree then .error degreePositiveMsg
    else
      let defaultDegree : Int := (defaultIntervalDegrees md : Int) + 7 * octaveSpan
      let selfDegree : Int := degree - 7 * octaveSpan
      if md = 0 ∧ selfDegree ≠ 1 then .error unisonDegreeMsg
      else if md = 0 ∧ (degree - 1) % 7 ≠ 0 then .error unisonExtendedMsg
      else if ¬ (0 < selfDegree ∧ selfDegree < 8) then .error degreeRangeMsg
      else if (degree - defaultDegree).natAbs ≤ 2 then
        .ok ⟨value, md, octaveSpan, selfDegree, degree⟩
      else if (degree - defaultDegree).natAbs = 8 ∨
              (degree - defaultDegree).natAbs = 9 ∨
              (degree - defaultDegree).natAbs = 10 then .error octaveOffMsg
      else .error tooFarMsg

/-- Whether an `Except` result is a success. -/
def exceptOk {ε α : Type} : Except ε α → Bool
  | .ok _ => true
  | .error _ => false

/-! ## IntervalList.pop (src/src/intervals.py lines 500-503) -/

/-- `IntervalList.pop(item)` (`intervals.py` lines 500-503): reads `self[-1]`
(an `IndexError` on an empty list), executes `del self[-1]`, rebuilds the
value set, and falls off the end of the function body, returning `None`.
The returned pair is the resulting list and the method's return value. -/
def intervalListPop (l : List Int) (item : Int) : Except String (List Int × Option Int) :=
  match l with
  | [] => .error "IndexError: list index out of range"
  | _ :: _ => .ok (l.eraseIdx (l.length - 1), none)

/-- Deleting the last index of a list is `dropLast`. -/
theorem eraseIdx_last_eq_dropLast : ∀ l : List Int, l.eraseIdx (l.length - 1) = l.dropLast
  | [] => rfl
  | [_] => rfl
  | a :: b :: t => by
    have ih := eraseIdx_last_eq_dropLast (b :: t)
    simp only [List.eraseIdx, List.length_cons, List.dropLast] at *
    simp only [Nat.add_sub_cancel] at *
    simpa using ih

/-- C5 (amended): `Interval` construction with an explicit degree succeeds
exactly when the degree is positive, the within-octave degree
(degree − 7·octave-span) lies strictly between 0 and 8, the unison
consistency conditions hold when the value is 0 mod 12, and the degree is
within 2 of the default degree (the mod-12 table degree plus 7 per octave
spanned); in particular a degree whose distance from the default is 7 (an
exact octave off) is always rejected with an error. -/
theorem interval_explicit_degree_validation (v d : Int) :
    (exceptOk (mkInterval v (some d)) = true ↔
       (0 < d ∧
        (v.natAbs % 12 = 0 → d - 7 * ((v.natAbs / 12 : Nat) : Int) = 1 ∧ (d - 1) % 7 = 0) ∧
        0 < d - 7 * ((v.natAbs / 12 : Nat) : Int) ∧
        d - 7 * ((v.natAbs / 12 : Nat) : Int) < 8 ∧
        (d - ((defaultIntervalDegrees (v.natAbs % 12) : Int) +
              7 * ((v.natAbs / 12 : Nat) : Int))).natAbs ≤ 2)) ∧
    ((d - ((defaultIntervalDegrees (v.natAbs % 12) : Int) +
           7 * ((v.natAbs / 12 : Nat) : Int))).natAbs = 7 →
       exceptOk (mkInterval v (some d)) = false) := by
  constructor
  · simp only [mkInterval, exceptOk]
    split_ifs with h1 h2 h3 h4 h5 h6 <;> simp_all
  · intro h7
    simp only [mkInterval, exceptOk]
    split_ifs with h1 h2 h3 h4 h5 h6 <;> simp_all

/-- Witness for `interval_explicit_degree_validation` at value 14,
degree 9 (a major ninth): construction succeeds. -/
theorem interval_explicit_degree_validation_witness :
    exceptOk (mkInterval 14 (some 9)) = true :=
  (interval_explicit_degree_validation 14 9).1.mpr (by decide)

/-- C5 counterexample: at value 13 with supplied degree 7 the degree is
within 2 of the default degree (9 = degree 2 plus one octave), yet
construction fails (the `assert 0 < self.degree < 8` at `intervals.py`
line 57 fires, since 7 − 7·1 = 0); so success is *not* equivalent to the
supplied degree being within 2 semitones of the default-table degree. -/
theorem interval_explicit_degree_claim_counterexample :
    ((7 : Int) - ((defaultIntervalDegrees ((13 : Int).natAbs % 12) : Int) +
        7 * ((((13 : Int).natAbs / 12 : Nat)) : Int))).natAbs ≤ 2 ∧
    exceptOk (mkInterval 13 (some 7)) = false := by decide

/-- C10: on a non-empty `IntervalList`, `pop` removes the last element of
the list no matter which argument is passed (the argument is never
inspected), and the method returns `None` rather than the removed
element. -/
theorem intervalList_pop_removes_last (l : List Int) (item item' : Int)
    (h : l ≠ []) :
    intervalListPop l item = .ok (l.dropLast, none) ∧
    intervalListPop l item = intervalListPop l item' := by
  match l, h with
  | a :: t, _ =>
    refine ⟨?_, rfl⟩
    simp only [intervalListPop]
    rw [eraseIdx_last_eq_dropLast]

/-- Witness for `intervalList_pop_removes_last` on the list `[0, 4, 7]`
with arguments 4 and 99. -/
theorem intervalList_pop_removes_last_witness :
    intervalListPop [0, 4, 7] 4 = .ok ([0, 4], none) ∧
    intervalListPop [0, 4, 7] 4 = intervalListPop [0, 4, 7] 99 :=
  intervalList_pop_removes_last [0, 4, 7] 4 99 (by decide)

/-! ## ChordFactors (src/src/chords.py lines 18-151)

A `ChordFactors` is a Python dict mapping chord degrees to semitone offsets
from the degree's default interval; we embed it as an association list.  The
code keeps these key-sorted (`ChordFactors.__add__`, lines 110-112). -/

abbrev ChordFactors := List (Nat × Int)

/-- The dict's key list, in iteration (insertion) order. -/
def factorKeys (f : ChordFactors) : List Nat := f.map Prod.fst

/-- A well-formed dict embedding: no repeated keys. -/
def NodupKeys (f : ChordFactors) : Prop := (factorKeys f).Nodup

instance (f : ChordFactors) : Decidable (NodupKeys f) := by
  unfold NodupKeys; infer_instance

/-- Dict lookup `f[d]`, as an option. -/
def findOffset : ChordFactors → Nat → Option Int
  | [], _ => none
  | p :: t, d => if p.1 = d then some p.2 else findOffset t d

/-- Dict key membership `d in f`. -/
def hasDegree (f : ChordFactors) (d : Nat) : Bool := (findOffset f d).isSome

/-- Python dict equality: the two mappings agree on every key. -/
def dictEq (f g : ChordFactors) : Prop := ∀ d, findOffset f d = findOffset g d

/-- `ChordFactors.__hash__` is `hash(tuple(self))` (`chords.py` lines
137-138); iterating a dict yields its *keys*, so the tuple actually hashed
is the key tuple.  This function is that hash input. -/
def dictHashInput (f : ChordFactors) : List Nat := f.map Prod.fst

/-- Key-sorting applied by `ChordFactors.__add__` (`chords.py` lines
110-112) after a qualifier is applied. -/
def sortFactors (f : ChordFactors) : ChordFactors :=
  List.insertionSort (fun p q : Nat × Int => p.1 ≤ q.1) f

/-- The major triad `{1: 0, 3: 0, 5: 0}` (`chords.py` line 148). -/
def majorTriad : ChordFactors := [(1, 0), (3, 0), (5, 0)]

/-! ## ChordQualifier (qualities.py is not under src/) -/

/-- Modelled from the spec: "A ChordQualifier declares: degrees to add
(with offsets), degrees to modify (by delta), degrees to remove, and a
validity predicate over an existing ChordFactors" (§4.3).  The class
itself lives in `qualities.py`, which is not under `src/`. -/
structure ChordQualifier where
  add : List (Nat × Int)
  modify : List (Nat × Int)
  remove : List Nat
  deriving Repr, DecidableEq

/-- Modelled from the spec: the validity predicate of a qualifier (§4.3,
e.g. "add9 is invalid if degree 9 is already present", "sus4 is invalid on
a chord that already lacks a third"): every degree to be added must be
absent, every degree to be modified or removed must be present. -/
def ChordQualifier.validOn (q : ChordQualifier) (f : ChordFactors) : Bool :=
  q.add.all (fun p => !hasDegree f p.1) &&
  q.modify.all (fun p => hasDegree f p.1) &&
  q.remove.all (fun d => hasDegree f d)

/-- Modelled from the spec: "Applying a qualifier to factors yields a new,
degree-sorted ChordFactors" (§4.3); removals are dropped, modifications
shift the existing offset by the declared delta, additions are inserted
with their declared offset, and the result is key-sorted (the sort is the
one performed by `ChordFactors.__add__`, `chords.py` lines 110-112). -/
def ChordQualifier.apply (q : ChordQualifier) (f : ChordFactors) : ChordFactors :=
  let kept := f.filter (fun p => decide (p.1 ∉ q.remove))
  let modified := kept.map (fun p =>
    match findOffset q.modify p.1 with
    | some delta => (p.1, p.2 + delta)
    | none => p)
  sortFactors (modified ++ q.add)

/-- `ChordFactors.distance` (`chords.py` lines 114-131): the qualifier that
must be applied to `other` (here `b`) to turn it into `self` (here `a`):
degrees of `a` missing from `b` are added at `a`'s offset, degrees present
in both with differing offsets are modified by the difference, and degrees
of `b` missing from `a` are removed. -/
def distance (a b : ChordFactors) : ChordQualifier where
  add := a.filter (fun p => !hasDegree b p.1)
  modify := (a.filter (fun p =>
      match findOffset b p.1 with
      | some ob => decide (ob ≠ p.2)
      | none => false)).map
    (fun p => (p.1, p.2 - (findOffset b p.1).getD 0))
  remove := (b.map Prod.fst).filter (fun d => !hasDegree a d)

/-! ### Association-list lemmas -/

/-- On a dup-free association list, lookup is membership. -/
theorem findOffset_eq_some_iff {f : ChordFactors} (hf : NodupKeys f)
    {d : Nat} {o : Int} : findOffset f d = some o ↔ (d, o) ∈ f := by
  induction f with
  | nil => simp [findOffset]
  | cons p t ih =>
    have hk : p.1 ∉ t.map Prod.fst ∧ NodupKeys t := by
      simpa [NodupKeys, factorKeys] using hf
    by_cases h : p.1 = d
    · subst h
      constructor
      · intro hx
        have ho : p.2 = o := by simpa [findOffset] using hx
        exact List.mem_cons.mpr (Or.inl (by rw [← ho]))
      · intro hx
        rcases List.mem_cons.mp hx with h1 | h1
        · have : o = p.2 := (congrArg Prod.snd h1).symm ▸ rfl
          simp [findOffset, ← congrArg Prod.snd h1]
        · exact absurd (List.mem_map_of_mem Prod.fst h1) hk.1
    · simp only [findOffset, if_neg h, List.mem_cons, ih hk.2]
      constructor
      · exact Or.inr
      · rintro (rfl | h1)
        · exact absurd rfl h
        · exact h1

/-- Lookup fails exactly when the key is absent. -/
theorem findOffset_eq_none_iff {f : ChordFactors} {d : Nat} :
    findOffset f d = none ↔ d ∉ factorKeys f := by
  induction f with
  | nil => simp [findOffset, factorKeys]
  | cons p t ih =>
    by_cases h : p.1 = d
    · subst h; simp [findOffset, factorKeys]
    · simp only [findOffset, if_neg h, factorKeys, List.map_cons, List.mem_cons, ih]
      constructor
      · intro h1 h2
        rcases h2 with h2 | h2
        · exact h (h2.symm)
        · exact h1 h2
      · intro h1 h2
        exact h1 (Or.inr h2)

/-- Key membership is `hasDegree`. -/
theorem hasDegree_iff_mem_keys {f : ChordFactors} {d : Nat} :
    hasDegree f d = true ↔ d ∈ factorKeys f := by
  constructor
  · intro h
    by_contra hc
    rw [← findOffset_eq_none_iff] at hc
    simp [hasDegree, hc] at h
  · intro h
    by_contra hc
    have h2 : findOffset f d = none := by
      cases hx : findOffset f d with
      | none => rfl
      | some o => simp [hasDegree, hx] at hc
    exact (findOffset_eq_none_iff.mp h2) h

/-- On dup-free association lists, lookup is invariant under permutation. -/
theorem findOffset_of_perm {l l' : ChordFactors} (h : l.Perm l')
    (hl : NodupKeys l) (d : Nat) : findOffset l d = findOffset l' d := by
  have hl' : NodupKeys l' := ((h.map Prod.fst).nodup_iff).mp hl
  cases hx : findOffset l' d with
  | none =>
    rw [findOffset_eq_none_iff] at hx ⊢
    exact fun hmem => hx ((h.map Prod.fst).mem_iff.mp hmem)
  | some o =>
    rw [findOffset_eq_some_iff hl'] at hx
    rw [findOffset_eq_some_iff hl]
    exact (h.mem_iff).mpr hx

/-- Lookup on an appended list tries the left side first. -/
theorem findOffset_append (l l' : ChordFactors) (d : Nat) :
    findOffset (l ++ l') d =
      (findOffset l d).elim (findOffset l' d) some := by
  induction l with
  | nil => simp [findOffset]
  | cons p t ih =>
    by_cases h : p.1 = d <;> simp [findOffset, h, ih]

/-- Filtering preserves key-dup-freeness. -/
theorem nodupKeys_filter {f : ChordFactors} (p : Nat × Int → Bool)
    (hf : NodupKeys f) : NodupKeys (f.filter p) :=
  ((List.filter_sublist f).map Prod.fst).nodup hf

/-- The modification map of `ChordQualifier.apply` preserves keys. -/
theorem factorKeys_map_modify (m : ChordFactors) (l : ChordFactors) :
    factorKeys (l.map (fun p =>
      match findOffset m p.1 with
      | some delta => (p.1, p.2 + delta)
      | none => p)) = factorKeys l := by
  induction l with
  | nil => rfl
  | cons q t ih =>
    simp only [List.map_cons, factorKeys] at *
    cases findOffset m q.1 <;> simp [ih]

/-- Keys of an appended association list. -/
theorem factorKeys_append (l l' : ChordFactors) :
    factorKeys (l ++ l') = factorKeys l ++ factorKeys l' :=
  List.map_append Prod.fst l l'

/-- C6: for well-formed `ChordFactors` `a` and `b`, applying the
`ChordQualifier` returned by `a.distance(b)` to `b` yields factors whose
degree-to-offset mapping is exactly that of `a`. -/
theorem distance_apply_reproduces (a b : ChordFactors)
    (ha : NodupKeys a) (hb : NodupKeys b) (d : Nat) :
    findOffset ((distance a b).apply b) d = findOffset a d := by
  classical
  have hmemkeys : ∀ {f : ChordFactors} {x : Nat},
      x ∈ factorKeys f ↔ ∃ o, (x, o) ∈ f := by
    intro f x
    constructor
    · intro hx
      rcases List.mem_map.mp hx with ⟨p, hp, hpx⟩
      exact ⟨p.2, by rw [← hpx]; simpa using hp⟩
    · rintro ⟨o, ho⟩
      exact List.mem_map.mpr ⟨(x, o), ho, rfl⟩
  -- characterizations of the three parts of the distance qualifier
  have hRmem : ∀ x : Nat, x ∈ (distance a b).remove ↔
      (x ∈ factorKeys b ∧ x ∉ factorKeys a) := by
    intro x
    simp only [distance, List.mem_filter, Bool.not_eq_true']
    rw [show (List.map Prod.fst b) = factorKeys b from rfl]
    constructor
    · rintro ⟨h1, h2⟩
      refine ⟨h1, fun hc => ?_⟩
      rw [← hasDegree_iff_mem_keys] at hc
      rw [hc] at h2
      cases h2
    · rintro ⟨h1, h2⟩
      refine ⟨h1, ?_⟩
      cases hx : hasDegree a x with
      | false => rfl
      | true => exact absurd (hasDegree_iff_mem_keys.mp hx) h2
  have hAmem : ∀ p : Nat × Int, p ∈ (distance a b).add ↔
      (p ∈ a ∧ p.1 ∉ factorKeys b) := by
    intro p
    simp only [distance, List.mem_filter, Bool.not_eq_true']
    constructor
    · rintro ⟨h1, h2⟩
      refine ⟨h1, fun hc => ?_⟩
      rw [← hasDegree_iff_mem_keys] at hc
      rw [hc] at h2
      cases h2
    · rintro ⟨h1, h2⟩
      refine ⟨h1, ?_⟩
      cases hx : hasDegree b p.1 with
      | false => rfl
      | true => exact absurd (hasDegree_iff_mem_keys.mp hx) h2
  -- the modify part has dup-free keys drawn from a
  have hMkeys : factorKeys (distance a b).modify ⊆ factorKeys a := by
    intro x hx
    simp only [distance, factorKeys, List.map_map] at hx
    rcases List.mem_map.mp hx with ⟨p, hp, hpx⟩
    exact List.mem_map.mpr ⟨p, (List.mem_filter.mp hp).1, hpx⟩
  have hMnodup : NodupKeys (distance a b).modify := by
    have : factorKeys (distance a b).modify =
        factorKeys (a.filter (fun p =>
          match findOffset b p.1 with
          | some ob => decide (ob ≠ p.2)
          | none => false)) := by
      simp only [distance, factorKeys, List.map_map]
      rfl
    rw [NodupKeys, this]
    exact nodupKeys_filter _ ha
  -- behaviour of the modify part at a degree present in both
  have hMsome : ∀ {x : Nat} {oA oB : Int}, findOffset a x = some oA →
      findOffset b x = some oB → oB ≠ oA →
      findOffset (distance a b).modify x = some (oA - oB) := by
    intro x oA oB hfa hfb hne
    rw [findOffset_eq_some_iff hMnodup]
    simp only [distance]
    refine List.mem_map.mpr ⟨(x, oA), List.mem_filter.mpr ⟨(findOffset_eq_some_iff ha).mp hfa, ?_⟩, ?_⟩
    · simp [hfb, hne]
    · simp [hfb]
  have hMnone : ∀ {x : Nat} {oA : Int}, findOffset a x = some oA →
      findOffset b x = some oA →
      findOffset (distance a b).modify x = none := by
    intro x oA hfa hfb
    rw [findOffset_eq_none_iff]
    intro hc
    rcases hmemkeys.mp hc with ⟨δ, hδ⟩
    simp only [distance] at hδ
    rcases List.mem_map.mp hδ with ⟨p, hp, hpx⟩
    rcases List.mem_filter.mp hp with ⟨hpa, hppred⟩
    have hpx1 : p.1 = x := congrArg Prod.fst hpx
    have : findOffset a x = some p.2 := by
      rw [findOffset_eq_some_iff ha, ← hpx1]
      simpa using hpa
    have hp2 : p.2 = oA := by
      rw [this] at hfa
      exact Option.some.inj hfa
    rw [hpx1, hfb, hp2] at hppred
    simp at hppred
  -- name the pieces of the applied qualifier
  have happly : (distance a b).apply b =
      sortFactors ((b.filter (fun p => decide (p.1 ∉ (distance a b).remove))).map
        (fun p =>
          match findOffset (distance a b).modify p.1 with
          | some delta => (p.1, p.2 + delta)
          | none => p) ++ (distance a b).add) := rfl
  set kept : ChordFactors :=
    b.filter (fun p => decide (p.1 ∉ (distance a b).remove)) with hkept
  set modified : ChordFactors := kept.map (fun p =>
    match findOffset (distance a b).modify p.1 with
    | some delta => (p.1, p.2 + delta)
    | none => p) with hmodified
  have hkeptnodup : NodupKeys kept := nodupKeys_filter _ hb
  have hmodkeys : factorKeys modified = factorKeys kept :=
    factorKeys_map_modify _ _
  have hmodnodup : NodupKeys modified := by rw [NodupKeys, hmodkeys]; exact hkeptnodup
  have hkeptkeys : factorKeys kept ⊆ factorKeys b :=
    fun x hx => (List.Sublist.map Prod.fst (List.filter_sublist b)).mem hx
  have haddnodup : NodupKeys (distance a b).add := by
    simp only [distance]
    exact nodupKeys_filter _ ha
  have haddkeys : ∀ {x}, x ∈ factorKeys (distance a b).add → x ∉ factorKeys b := by
    intro x hx
    rcases hmemkeys.mp hx with ⟨o, ho⟩
    exact ((hAmem (x, o)).mp ho).2
  -- the combined list is a well-formed dict
  have hcombined : NodupKeys (modified ++ (distance a b).add) := by
    rw [NodupKeys, factorKeys_append]
    refine List.Nodup.append hmodnodup haddnodup ?_
    intro x hx hx'
    exact haddkeys hx' (hkeptkeys (hmodkeys ▸ hx))
  -- sorting does not change the mapping
  have hsortperm : (sortFactors (modified ++ (distance a b).add)).Perm
      (modified ++ (distance a b).add) :=
    List.perm_insertionSort _ _
  have hsortnodup : NodupKeys (sortFactors (modified ++ (distance a b).add)) :=
    ((hsortperm.map Prod.fst).nodup_iff).mpr hcombined
  rw [happly, findOffset_of_perm hsortperm hsortnodup d, findOffset_append]
  -- now settle the three cases
  cases hfa : findOffset a d with
  | some oA =>
    have hdka : d ∈ factorKeys a :=
      hmemkeys.mpr ⟨oA, (findOffset_eq_some_iff ha).mp hfa⟩
    cases hfb : findOffset b d with
    | some oB =>
      -- degree in both: it survives `kept` and is adjusted by `modified`
      have hkeptd : (d, oB) ∈ kept := by
        rw [hkept]
        refine List.mem_filter.mpr ⟨(findOffset_eq_some_iff hb).mp hfb, ?_⟩
        simp only [decide_eq_true_eq]
        intro hc
        exact ((hRmem d).mp hc).2 hdka
      have hmodd : (d, oA) ∈ modified := by
        rw [hmodified]
        by_cases hoo : oB = oA
        · refine List.mem_map.mpr ⟨(d, oB), hkeptd, ?_⟩
          rw [show findOffset (distance a b).modify (d, oB).1 = none from
            hMnone hfa (hoo ▸ hfb)]
          rw [hoo]
        · refine List.mem_map.mpr ⟨(d, oB), hkeptd, ?_⟩
          rw [show findOffset (distance a b).modify (d, oB).1 = some (oA - oB) from
            hMsome hfa hfb hoo]
          simp only [Prod.mk.injEq, true_and]
          omega
      rw [(findOffset_eq_some_iff hmodnodup).mpr hmodd]
      rfl
    | none =>
      -- degree only in a: it is added back by the add part
      have hdnb : d ∉ factorKeys b := findOffset_eq_none_iff.mp hfb
      have haddd : (d, oA) ∈ (distance a b).add :=
        (hAmem (d, oA)).mpr ⟨(findOffset_eq_some_iff ha).mp hfa, hdnb⟩
      have hmodnone : findOffset modified d = none := by
        rw [findOffset_eq_none_iff, hmodkeys]
        exact fun hc => hdnb (hkeptkeys hc)
      rw [hmodnone, (findOffset_eq_some_iff haddnodup).mpr haddd]
      rfl
  | none =>
    -- degree absent from a: it is removed and not re-added
    have hdna : d ∉ factorKeys a := findOffset_eq_none_iff.mp hfa
    have hmodnone : findOffset modified d = none := by
      rw [findOffset_eq_none_iff, hmodkeys]
      intro hc
      rcases hmemkeys.mp hc with ⟨o, ho⟩
      rcases List.mem_filter.mp (hkept ▸ ho) with ⟨hob, hopred⟩
      simp only [decide_eq_true_eq] at hopred
      exact hopred ((hRmem d).mpr ⟨hmemkeys.mpr ⟨o, hob⟩, hdna⟩)
    have haddnone : findOffset (distance a b).add d = none := by
      rw [findOffset_eq_none_iff]
      intro hc
      rcases hmemkeys.mp hc with ⟨o, ho⟩
      exact hdna (hmemkeys.mpr ⟨o, ((hAmem (d, o)).mp ho).1⟩)
    rw [hmodnone, haddnone]
    rfl

/-- Witness for `distance_apply_reproduces`: `A` a minor seventh chord,
`B` a major triad; the distance qualifier applied to `B` maps every degree
exactly as `A` does (checked at degrees 1, 3, 5, 7 and the absent 9). -/
theorem distance_apply_reproduces_witness :
    findOffset ((distance [(1, 0), (3, -1), (5, 0), (7, -1)] majorTriad).apply
      majorTriad) 3 = findOffset [(1, 0), (3, -1), (5, 0), (7, -1)] 3 ∧
    findOffset ((distance [(1, 0), (3, -1), (5, 0), (7, -1)] majorTriad).apply
      majorTriad) 7 = findOffset [(1, 0), (3, -1), (5, 0), (7, -1)] 7 ∧
    findOffset ((distance [(1, 0), (3, -1), (5, 0), (7, -1)] majorTriad).apply
      majorTriad) 9 = findOffset [(1, 0), (3, -1), (5, 0), (7, -1)] 9 :=
  ⟨distance_apply_reproduces _ majorTriad (by decide) (by decide) 3,
   distance_apply_reproduces _ majorTriad (by decide) (by decide) 7,
   distance_apply_reproduces _ majorTriad (by decide) (by decide) 9⟩

/-! ### ChordFactors equality and hashing (claim C8) -/

/-- C8 (amended): two well-formed `ChordFactors` compare equal exactly when
their degree/offset pairs match exactly; but the hash input
(`hash(tuple(self))`, `chords.py` line 138) is the tuple of dict *keys*
(degrees) only, so any two factor-sets with the same degree lists receive
the same hash, whatever their offsets. -/
theorem chordFactors_eq_iff_and_hash_by_keys (f g : ChordFactors)
    (hf : NodupKeys f) (hg : NodupKeys g) :
    (dictEq f g ↔ ∀ p : Nat × Int, p ∈ f ↔ p ∈ g) ∧
    (factorKeys f = factorKeys g → dictHashInput f = dictHashInput g) := by
  constructor
  · constructor
    · rintro h ⟨d, o⟩
      rw [← findOffset_eq_some_iff hf, ← findOffset_eq_some_iff hg, h d]
    · intro h d
      cases hx : findOffset g d with
      | some o =>
        rw [findOffset_eq_some_iff hf]
        exact (h (d, o)).mpr ((findOffset_eq_some_iff hg).mp hx)
      | none =>
        rw [findOffset_eq_none_iff] at hx ⊢
        intro hc
        rcases List.mem_map.mp hc with ⟨p, hp, hpd⟩
        exact hx (hpd ▸ List.mem_map_of_mem Prod.fst ((h p).mp hp))
  · intro h
    exact h

/-- Witness for `chordFactors_eq_iff_and_hash_by_keys` at the major and
minor triads. -/
theorem chordFactors_eq_iff_and_hash_by_keys_witness :
    (dictEq majorTriad [(1, 0), (3, -1), (5, 0)] ↔
      ∀ p : Nat × Int, p ∈ majorTriad ↔ p ∈ [(1, 0), (3, -1), (5, 0)]) ∧
    (factorKeys majorTriad = factorKeys [(1, 0), (3, -1), (5, 0)] →
      dictHashInput majorTriad = dictHashInput [(1, 0), (3, -1), (5, 0)]) :=
  chordFactors_eq_iff_and_hash_by_keys majorTriad [(1, 0), (3, -1), (5, 0)]
    (by decide) (by decide)

/-- C8 counterexample: the major triad `{1:0, 3:0, 5:0}` and the minor
triad `{1:0, 3:-1, 5:0}` have the same degrees with different offsets, are
unequal as dicts, and yet have *identical* hash inputs (`tuple(self)` is
the key tuple `(1, 3, 5)` for both), refuting "different hashes". -/
theorem chordFactors_hash_claim_counterexample :
    dictHashInput majorTriad = dictHashInput [(1, 0), (3, -1), (5, 0)] ∧
    findOffset majorTriad 3 = some 0 ∧
    findOffset [(1, 0), (3, -1), (5, 0)] 3 = some (-1) := by decide

/-! ## Interval quality (qualities.py is not under src/;
`Interval._detect_quality` and `Interval.from_degree` are source,
src/src/intervals.py lines 79-89 and 122-151) -/

/-- Modelled from the spec: the quality families of §4.1 ("perfect-family
degrees (1,4,5) use a perfect-offset quality scale (diminished/perfect/
augmented); all others use a major-offset scale (diminished/minor/major/
augmented)", with doubly-altered qualities beyond those, cf. the "dim or
aug (or ddim or aaug)" comment in `_determine_quality`). -/
inductive Quality where
  | doublyDiminished
  | diminished
  | minor
  | perfect
  | major
  | augmented
  | doublyAugmented
  deriving Repr, DecidableEq

/-- Modelled from the spec: `Quality.from_offset_wrt_perfect`
(perfect-offset scale, §4.1). -/
def Quality.fromOffsetWrtPerfect (o : Int) : Quality :=
  if o ≤ -2 then .doublyDiminished
  else if o = -1 then .diminished
  else if o = 0 then .perfect
  else if o = 1 then .augmented
  else .doublyAugmented

/-- Modelled from the spec: `Quality.from_offset_wrt_major`
(major-offset scale, §4.1). -/
def Quality.fromOffsetWrtMajor (o : Int) : Quality :=
  if o ≤ -3 then .doublyDiminished
  else if o = -2 then .diminished
  else if o = -1 then .minor
  else if o = 0 then .major
  else if o = 1 then .augmented
  else .doublyAugmented

/-- `Interval.from_degree(d, offset=o)` (`intervals.py` lines 122-151):
splits an extended degree into octave span and within-octave degree,
indexes `default_degree_intervals` (a `KeyError` outside 1-7), adds the
offset and 12 per octave, and runs the full `Interval.__init__`
validation on the resulting value with the extended degree. -/
def fromDegree (d : Nat) (o : Int) : Except String PyInterval :=
  let modDeg := if d ≥ 8 then (d - 1) % 7 + 1 else d
  let octD : Int := if d ≥ 8 then ((d - 1) / 7 : Nat) else 0
  if modDeg < 1 ∨ modDeg > 7 then .error "KeyError: default_degree_intervals"
  else mkInterval (defaultDegreeIntervals modDeg + 12 * octD + o) (some d)

/-- `Interval._detect_quality` (`intervals.py` lines 79-89): the offset of
the interval's mod value from its within-octave degree's canonical value,
read on the perfect scale for degrees 1, 4, 5 (`perfect_degrees`, line
616) and on the major scale otherwise. -/
def detectQuality (iv : PyInterval) : Except String Quality :=
  if iv.degree < 1 ∨ iv.degree > 7 then .error "KeyError: default_degree_intervals"
  else
    let defaultValue := defaultDegreeIntervals iv.degree.toNat
    let offset : Int := (iv.mod : Int) - defaultValue
    if iv.degree = 1 ∨ iv.degree = 4 ∨ iv.degree = 5 then
      .ok (Quality.fromOffsetWrtPerfect offset)
    else .ok (Quality.fromOffsetWrtMajor offset)

/-- The quality of the factor interval `Interval.from_degree(d, offset=o)`,
i.e. the `.quality` attribute read by `_determine_quality` through
`self.factor_intervals[d]`. -/
def factorQualityE (d : Nat) (o : Int) : Except String Quality :=
  (fromDegree d o).bind detectQuality

/-! ## Chord quality (claim C2) -/

/-- `AbstractChord._determine_quality` (src/src/chords.py lines 344-364):
the quality of the third if present (escalated to augmented/diminished by
an augmented/diminished fifth when the third is major/minor respectively),
otherwise the quality of the fifth (a `KeyError` if the fifth is also
absent). -/
def determineQuality (f : ChordFactors) : Except String Quality :=
  match findOffset f 3 with
  | none =>
    match findOffset f 5 with
    | none => .error "KeyError: factor_intervals[5]"
    | some o5 => factorQualityE 5 o5
  | some o3 =>
    (factorQualityE 3 o3).bind (fun q3 =>
      if q3 = Quality.major then
        match findOffset f 5 with
        | some o5 => (factorQualityE 5 o5).map
            (fun q5 => if q5 = Quality.augmented then Quality.augmented else Quality.major)
        | none => .ok Quality.major
      else if q3 = Quality.minor then
        match findOffset f 5 with
        | some o5 => (factorQualityE 5 o5).map
            (fun q5 => if q5 = Quality.diminished then Quality.diminished else Quality.minor)
        | none => .ok Quality.minor
      else .ok q3)

/-- `Chord.__init__` (src/src/chords.py lines 714-715): a concrete `Chord`
overrides its quality with
`qualities.Perfect if 3 not in self.factors else self.factor_intervals[3].quality` —
no fifth fallback and no escalation. -/
def chordQualityLine715 (f : ChordFactors) : Except String Quality :=
  match findOffset f 3 with
  | none => .ok Quality.perfect
  | some o3 => factorQualityE 3 o3

/-- The quality-derivation rule in the words of the spec (§4.4 "Quality
derivation: primarily the quality of the third; if no third is present,
the quality of the fifth; if a third is present and major/minor but the
fifth is augmented/diminished respectively, the chord quality escalates to
augmented/diminished"). -/
def specChordQuality (f : ChordFactors) : Option Quality :=
  match findOffset f 3 with
  | some o3 =>
    match (factorQualityE 3 o3).toOption with
    | none => none
    | some q3 =>
      if q3 = Quality.major then
        match findOffset f 5 with
        | some o5 =>
          match (factorQualityE 5 o5).toOption with
          | some q5 =>
            if q5 = Quality.augmented then some Quality.augmented else some Quality.major
          | none => none
        | none => some Quality.major
      else if q3 = Quality.minor then
        match findOffset f 5 with
        | some o5 =>
          match (factorQualityE 5 o5).toOption with
          | some q5 =>
            if q5 = Quality.diminished then some Quality.diminished else some Quality.minor
          | none => none
        | none => some Quality.minor
      else some q3
  | none => (findOffset f 5).bind (fun o5 => (factorQualityE 5 o5).toOption)

/-- C2 (amended): an `AbstractChord`'s quality follows the spec's full
rule (third primary, fifth fallback, augmented/diminished escalation);
but a concrete `Chord`'s quality, set at `chords.py` line 715, is just the
third's quality when a third is present and `Perfect` otherwise — the
fifth is never consulted. -/
theorem chord_quality_derivation (f : ChordFactors) :
    (∀ q : Quality, determineQuality f = .ok q ↔ specChordQuality f = some q) ∧
    (hasDegree f 3 = false → chordQualityLine715 f = .ok Quality.perfect) ∧
    (∀ o3 : Int, findOffset f 3 = some o3 → chordQualityLine715 f = factorQualityE 3 o3) := by
  refine ⟨?_, ?_, ?_⟩
  · intro q
    unfold determineQuality specChordQuality
    cases h3 : findOffset f 3 with
    | none =>
      cases h5 : findOffset f 5 with
      | none => simp
      | some o5 =>
        cases hq5 : factorQualityE 5 o5 <;> simp [Except.toOption, hq5]
    | some o3 =>
      cases hq3 : factorQualityE 3 o3 with
      | error e => simp [Except.toOption, hq3, Except.bind]
      | ok q3 =>
        simp only [Except.toOption, hq3, Except.bind]
        by_cases hmaj : q3 = Quality.major
        · subst hmaj
          cases h5 : findOffset f 5 with
          | none => simp
          | some o5 =>
            cases hq5 : factorQualityE 5 o5 with
            | error e => simp [Except.toOption, hq5, Except.map]
            | ok q5 =>
              simp only [Except.toOption, hq5, Except.map, if_pos rfl]
              by_cases haug : q5 = Quality.augmented <;> simp [haug]
        · by_cases hmin : q3 = Quality.minor
          · subst hmin
            cases h5 : findOffset f 5 with
            | none => simp
            | some o5 =>
              cases hq5 : factorQualityE 5 o5 with
              | error e => simp [Except.toOption, hq5, Except.map, hmaj]
              | ok q5 =>
                simp only [Except.toOption, hq5, Except.map, if_neg hmaj, if_pos rfl]
                by_cases hdim : q5 = Quality.diminished <;> simp [hdim, hmaj]
          · cases h5 : findOffset f 5 with
            | none => simp [hmaj, hmin]
            | some o5 =>
              cases hq5 : factorQualityE 5 o5 with
              | error e => simp [Except.toOption, hq5, hmaj, hmin]
              | ok q5 => simp [Except.toOption, hq5, hmaj, hmin]
  · intro h3
    unfold chordQualityLine715
    cases hx : findOffset f 3 with
    | none => rfl
    | some o3 => simp [hasDegree, hx] at h3
  · intro o3 h3
    unfold chordQualityLine715
    rw [h3]

/-- Witness for `chord_quality_derivation` at the diminished triad
`{1:0, 3:-1, 5:-1}`: the minor third escalates to diminished via the
diminished fifth. -/
theorem chord_quality_derivation_witness :
    specChordQuality [(1, 0), (3, -1), (5, -1)] = some Quality.diminished ∧
    chordQualityLine715 [(1, 0), (3, -1), (5, -1)] = factorQualityE 3 (-1) :=
  ⟨((chord_quality_derivation [(1, 0), (3, -1), (5, -1)]).1 Quality.diminished).mp rfl,
   (chord_quality_derivation [(1, 0), (3, -1), (5, -1)]).2.2 (-1) rfl⟩

/-- C2 counterexample: on the augmented triad `{1:0, 3:0, 5:+1}` the
spec's rule (and `AbstractChord`) gives Augmented, but `Chord.__init__`
(line 715) gives Major — so the claimed rule does not hold for
"AbstractChord and Chord alike". -/
theorem chord_quality_claim_counterexample :
    determineQuality [(1, 0), (3, 0), (5, 1)] = .ok Quality.augmented ∧
    chordQualityLine715 [(1, 0), (3, 0), (5, 1)] = .ok Quality.major ∧
    Quality.augmented ≠ Quality.major := ⟨rfl, rfl, by decide⟩

/-! ## Interval lists as registry keys (src/src/intervals.py)

Registry keys are `IntervalList`s; their dict hash is `hash(tuple(self.sorted()))`
with value-based `Interval.__hash__`/`__eq__`, and every key stored in or
queried against the registry is sorted, so a sorted list of semitone values
is a faithful key representation. -/

/-- Ascending sort of semitone values (`IntervalList.sorted`). -/
def sortInts (l : List Int) : List Int := List.insertionSort (· ≤ ·) l

/-- The semitone value of `Interval.from_degree(d, offset=o)`
(`intervals.py` lines 122-151): canonical value of the within-octave
degree, plus 12 per octave of the extended degree, plus the offset.  (The
`Interval.__init__` validation run by `from_degree` succeeds on every
factor appearing in the registry build; see `fromDegree`.) -/
def fromDegreeValue (d : Nat) (o : Int) : Int :=
  let modDeg := if d ≥ 8 then (d - 1) % 7 + 1 else d
  let octD : Int := if d ≥ 8 then ((d - 1) / 7 : Nat) else 0
  defaultDegreeIntervals modDeg + 12 * octD + o

/-- `ChordFactors.to_intervals` / the interval list built from factors by
`AbstractChord._parse_input` (src/src/chords.py lines 81-87 and 312-319,
sorted at line 342). -/
def factorsToIntervals (f : ChordFactors) : List Int :=
  sortInts (f.map (fun p => fromDegreeValue p.1 p.2))

/-- The value of `Interval.__invert__` (`intervals.py` lines 238-250). -/
def invertValue (v : Int) : Int :=
  let s : Int := if v < 0 then -1 else 1
  let md : Int := (v.natAbs % 12 : Nat)
  let oct : Int := (v.natAbs / 12 : Nat)
  (-(12 - md)) * s + 12 * oct * (-s)

/-- The value of `Interval.flatten` (`intervals.py` lines 258-264):
negative intervals are inverted first, then the mod value is taken. -/
def flattenValue (v : Int) : Int :=
  if v < 0 then ((invertValue v).natAbs % 12 : Nat) else (v.natAbs % 12 : Nat)

/-- `IntervalList.flatten` (`intervals.py` lines 546-552): flatten each
value, de-duplicate, sort. -/
def flattenList (l : List Int) : List Int :=
  sortInts (l.map flattenValue).dedup

/-- Modelled from the spec: `util.rotate_list` (util.py is not under src/)
rotates a list so that element `p` becomes first (§4.2). -/
def rotateList (l : List Int) (p : Nat) : List Int := l.drop p ++ l.take p

/-- `IntervalList.invert` (`intervals.py` lines 559-569): rotate to the
given position, recentre on the new first element, invert any negative
values to their positive complements, de-duplicate, sort. -/
def invertIntervalList (l : List Int) (p : Nat) : List Int :=
  match rotateList l p with
  | [] => []
  | r0 :: rest =>
    let recentred := (r0 :: rest).map (fun v => v - r0)
    let positive := recentred.map (fun v => if v < 0 then invertValue v else v)
    sortInts positive.dedup

/-! ## The naming registry (src/src/chords.py lines 1157-1256) -/

/-- `chord_names_by_rarity` (`chords.py` lines 1157-1162). -/
def chordNamesByRarity : List (Nat × List String) :=
  [(0, ["", "m", "7", "5"]),
   (1, ["m7", "maj7", "dim", "sus4", "sus2", "add9"]),
   (2, ["mmaj7", "dim7", "hdim7", "6", "m6", "aug7", "9", "maj9", "m9", "aug"]),
   (3, ["7b5", "7#9", "add4", "7b9", "dim9", "dmin9", "mmaj9", "hdmin9",
        "dimM7", "augM7", "11", "13", "m11", "m13", "maj11", "maj13"]),
   (4, ["add11", "add13", "dim11", "dim13", "mmaj11", "mmaj13"]),
   (5, []), (6, []), (7, [])]

/-- `ordered_modifier_names` (`chords.py` line 1166). -/
def orderedModifierNames : List String := ["sus4", "sus2", "add9", "add11", "add13"]

/-- `modifier_names_by_rarity` (`chords.py` line 1167). -/
def modifierNamesByRarity : List (Nat × List String) :=
  [(1, ["sus4", "sus2"]), (2, ["add9"]), (3, ["add11"]), (4, ["add13"])]

/-- `unmodifiable_chords` (`chords.py` line 1172). -/
def unmodifiableChords : List String :=
  ["", "5", "(no5)", "add4", "add9", "add11", "add13"]

/-- Modelled from the spec: `util.unpack_and_reverse_dict` (util.py is not
under src/) maps each name in each tier's list to its tier (§3:
"chord_name_rarities: name → integer tier"). -/
def unpackAndReverseDict (d : List (Nat × List String)) : List (String × Nat) :=
  (d.map (fun p => p.2.map (fun n => (n, p.1)))).flatten

/-- Lookup in a name-keyed association list. -/
def lookupName (m : List (String × Nat)) (s : String) : Option Nat :=
  (m.find? (fun p => decide (p.1 = s))).map (·.2)

/-- Lookup in the factors-to-names map (all keys are key-sorted, so list
equality coincides with Python dict-key equality). -/
def lookupFactors (m : List (ChordFactors × String)) (f : ChordFactors) : Option String :=
  (m.find? (fun p => decide (p.1 = f))).map (·.2)

/-- Lookup in the intervals-to-names map (all keys sorted; see module
docstring). -/
def lookupIntervals (m : List (List Int × String)) (l : List Int) : Option String :=
  (m.find? (fun p => decide (p.1 = l))).map (·.2)

/-- Modelled from the spec: the factor content of every base-vocabulary
chord name.  The name strings are parsed by `parse_chord_qualifiers`
(qualities.py/parsing.py, not under src/) into qualifiers applied to the
default major triad; this table records the resulting `ChordFactors`
(spec §3: `AbstractChord("maj7").factors == {1:0, 3:0, 5:0, 7:0}`; §4.5
base vocabulary; Python-musical naming conventions: `m` flattens the
third, `dim` also the fifth, `7` adds a minor seventh, `maj7` a major
seventh, `6` a major sixth, `9`/`11`/`13` stack ninth/eleventh/thirteenth
on the dominant seventh, `sus2`/`sus4` replace the third, `add9` etc. add
the bare degree, `hdim7` is the half-diminished seventh, `dim7` the
doubly-flattened seventh, `aug` raises the fifth). -/
def baseChordFactorsTable : List (String × ChordFactors) :=
  [("", [(1, 0), (3, 0), (5, 0)]),
   ("m", [(1, 0), (3, -1), (5, 0)]),
   ("7", [(1, 0), (3, 0), (5, 0), (7, -1)]),
   ("5", [(1, 0), (5, 0)]),
   ("m7", [(1, 0), (3, -1), (5, 0), (7, -1)]),
   ("maj7", [(1, 0), (3, 0), (5, 0), (7, 0)]),
   ("dim", [(1, 0), (3, -1), (5, -1)]),
   ("sus4", [(1, 0), (4, 0), (5, 0)]),
   ("sus2", [(1, 0), (2, 0), (5, 0)]),
   ("add9", [(1, 0), (3, 0), (5, 0), (9, 0)]),
   ("mmaj7", [(1, 0), (3, -1), (5, 0), (7, 0)]),
   ("dim7", [(1, 0), (3, -1), (5, -1), (7, -2)]),
   ("hdim7", [(1, 0), (3, -1), (5, -1), (7, -1)]),
   ("6", [(1, 0), (3, 0), (5, 0), (6, 0)]),
   ("m6", [(1, 0), (3, -1), (5, 0), (6, 0)]),
   ("aug7", [(1, 0), (3, 0), (5, 1), (7, -1)]),
   ("9", [(1, 0), (3, 0), (5, 0), (7, -1), (9, 0)]),
   ("maj9", [(1, 0), (3, 0), (5, 0), (7, 0), (9, 0)]),
   ("m9", [(1, 0), (3, -1), (5, 0), (7, -1), (9, 0)]),
   ("aug", [(1, 0), (3, 0), (5, 1)]),
   ("7b5", [(1, 0), (3, 0), (5, -1), (7, -1)]),
   ("7#9", [(1, 0), (3, 0), (5, 0), (7, -1), (9, 1)]),
   ("add4", [(1, 0), (3, 0), (4, 0), (5, 0)]),
   ("7b9", [(1, 0), (3, 0), (5, 0), (7, -1), (9, -1)]),
   ("dim9", [(1, 0), (3, -1), (5, -1), (7, -2), (9, 0)]),
   ("dmin9", [(1, 0), (3, -1), (5, -1), (7, -2), (9, -1)]),
   ("mmaj9", [(1, 0), (3, -1), (5, 0), (7, 0), (9, 0)]),
   ("hdmin9", [(1, 0), (3, -1), (5, -1), (7, -1), (9, -1)]),
   ("dimM7", [(1, 0), (3, -1), (5, -1), (7, 0)]),
   ("augM7", [(1, 0), (3, 0), (5, 1), (7, 0)]),
   ("11", [(1, 0), (3, 0), (5, 0), (7, -1), (9, 0), (11, 0)]),
   ("13", [(1, 0), (3, 0), (5, 0), (7, -1), (9, 0), (11, 0), (13, 0)]),
   ("m11", [(1, 0), (3, -1), (5, 0), (7, -1), (9, 0), (11, 0)]),
   ("m13", [(1, 0), (3, -1), (5, 0), (7, -1), (9, 0), (11, 0), (13, 0)]),
   ("maj11", [(1, 0), (3, 0), (5, 0), (7, 0), (9, 0), (11, 0)]),
   ("maj13", [(1, 0), (3, 0), (5, 0), (7, 0), (9, 0), (11, 0), (13, 0)]),
   ("add11", [(1, 0), (3, 0), (5, 0), (11, 0)]),
   ("add13", [(1, 0), (3, 0), (5, 0), (13, 0)]),
   ("dim11", [(1, 0), (3, -1), (5, -1), (7, -2), (9, 0), (11, 0)]),
   ("dim13", [(1, 0), (3, -1), (5, -1), (7, -2), (9, 0), (11, 0), (13, 0)]),
   ("mmaj11", [(1, 0), (3, -1), (5, 0), (7, 0), (9, 0), (11, 0)]),
   ("mmaj13", [(1, 0), (3, -1), (5, 0), (7, 0), (9, 0), (11, 0), (13, 0)])]

/-- Base-table lookup, i.e. `AbstractChord(name).factors` for a base
vocabulary name. -/
def lookupBaseFactors (s : String) : Option ChordFactors :=
  (baseChordFactorsTable.find? (fun p => decide (p.1 = s))).map (·.2)

/-- Modelled from the spec: `qualities.chord_modifiers` (qualities.py is
not under src/) for the five ordered modifiers of §4.5 — the suspensions
replace the third by the second/fourth, the additions insert the bare
ninth/eleventh/thirteenth. -/
def chordModifiers : List (String × ChordQualifier) :=
  [("sus4", ⟨[(4, 0)], [], [3]⟩),
   ("sus2", ⟨[(2, 0)], [], [3]⟩),
   ("add9", ⟨[(9, 0)], [], []⟩),
   ("add11", ⟨[(11, 0)], [], []⟩),
   ("add13", ⟨[(13, 0)], [], []⟩)]

/-- `qualities.chord_modifiers[name]` lookup. -/
def lookupModifier (s : String) : Option ChordQualifier :=
  (chordModifiers.find? (fun p => decide (p.1 = s))).map (·.2)

/-- The registry state: `factors_to_chord_names`, `intervals_to_chord_names`
(`chords.py` line 1178) and `new_rarities` (line 1184, flattened to
(rarity, name) pairs in registration order). -/
structure Registry where
  factorsMap : List (ChordFactors × String)
  intervalsMap : List (List Int × String)
  newRarities : List (Nat × String)
  deriving Repr, DecidableEq

/-- One step of the base-chord registration loop (`chords.py` lines
1188-1196): instantiate the chord by name, and register factors and
intervals under the name unless either is already claimed (collisions are
logged and the first registrant wins). -/
def registerBase (st : Registry) (name : String) : Except String Registry :=
  match lookupBaseFactors name with
  | none => .error ("parse_chord_qualifiers: unrecognized chord name " ++ name)
  | some f =>
    let ivs := factorsToIntervals f
    if (lookupFactors st.factorsMap f).isSome ∨ (lookupIntervals st.intervalsMap ivs).isSome then
      .ok st
    else
      .ok { st with factorsMap := st.factorsMap ++ [(f, name)],
                    intervalsMap := st.intervalsMap ++ [(ivs, name)] }

/-- The modifier pass for one base chord (`chords.py` lines 1202-1245).
Notes on two guards translated from the source:

* line 1212 tests `modifier in ind_modifiers` — the `ChordQualifier`
  *object* against a set of *strings*; no qualifier equals a string, so
  the test is `False`, Python short-circuits the `and`, and the
  minor-quality guard never fires; the guard is therefore always passed.
* line 1229 fetches `modifier2 = qualities.chord_modifiers[mod_name]` —
  by `mod_name`, not `mod_name2` — so `modifier2` is the very object
  already bound to `modifier` and the `modifier2 is not modifier` identity
  test at line 1231 is always `False`; if it ever fired, line 1235 would
  raise `NameError` on the undefined variable `mod2_name`. -/
def applyModifiersToBase (baseRarities : List (String × Nat)) (st : Registry)
    (chordName : String) : Except String Registry :=
  if chordName ∈ unmodifiableChords then .ok st
  else
    match lookupBaseFactors chordName with
    | none => .error ("parse_chord_qualifiers: unrecognized chord name " ++ chordName)
    | some baseFactors =>
      orderedModifierNames.foldlM (fun st modName =>
        match lookupModifier modName with
        | none => .error "KeyError: chord_modifiers"
        | some modifier =>
          if modifier.validOn baseFactors then
            -- line 1212's guard is always passed (see docstring)
            let alteredName := chordName ++ modName
            let alteredFactors := modifier.apply baseFactors
            let alteredIntervals := factorsToIntervals alteredFactors
            if (lookupFactors st.factorsMap alteredFactors).isNone ∧
               (lookupIntervals st.intervalsMap alteredIntervals).isNone then
              match lookupName (unpackAndReverseDict modifierNamesByRarity) modName,
                    lookupName baseRarities chordName with
              | some modRarity, some baseRarity =>
                -- new_rarities has keys 0-7 only (line 1184); an out-of-range
                -- rarity would be a KeyError (none occurs in the build)
                if baseRarity + modRarity > 7 then .error "KeyError: new_rarities"
                else
                let st' : Registry :=
                  { st with
                    factorsMap := st.factorsMap ++ [(alteredFactors, alteredName)],
                    intervalsMap := st.intervalsMap ++ [(alteredIntervals, alteredName)],
                    newRarities := st.newRarities ++ [(baseRarity + modRarity, alteredName)] }
                -- the second-modifier loop, lines 1228-1245
                orderedModifierNames.foldlM (fun st _modName2 =>
                  match lookupModifier modName with  -- line 1229 uses mod_name
                  | none => .error "KeyError: chord_modifiers"
                  | some modifier2 =>
                    if modifier2 ≠ modifier then
                      -- dead branch: modifier2 is the same dict entry as modifier
                      if modifier2.validOn alteredFactors then
                        if modName ≠ "(no5)" then
                          .error "NameError: name 'mod2_name' is not defined"
                        else .ok st
                      else .ok st
                    else .ok st) st'
              | _, _ => .error "KeyError: rarity lookup"
            else .ok st
          else .ok st) st

/-- The full registry build (`chords.py` lines 1178-1245): the base pass
over every tier, then the modifier pass over every tier (against the
rarities of the *original* tier table, line 1181). -/
def buildRegistryE : Except String Registry := do
  let st ← chordNamesByRarity.foldlM
    (fun st pair => pair.2.foldlM registerBase st)
    ({ factorsMap := [], intervalsMap := [], newRarities := [] } : Registry)
  chordNamesByRarity.foldlM
    (fun st pair => pair.2.foldlM (applyModifiersToBase (unpackAndReverseDict chordNamesByRarity)) st)
    st

/-- `chord_names_by_rarity` after the build (`chords.py` lines 1247-1249):
each tier extended with the newly registered names of that tier. -/
def finalChordNamesByRarity (reg : Registry) : List (Nat × List String) :=
  chordNamesByRarity.map (fun p =>
    (p.1, p.2 ++ (reg.newRarities.filter (fun q => decide (q.1 = p.1))).map (·.2)))

/-- The rebuilt `chord_name_rarities` (`chords.py` line 1252). -/
def finalRarities (reg : Registry) : List (String × Nat) :=
  unpackAndReverseDict (finalChordNamesByRarity reg)

/-- The registered names: the values of `factors_to_chord_names`, i.e. the
keys of `chord_names_to_factors = reverse_dict(factors_to_chord_names)`
(`chords.py` line 1255). -/
def registryNames (reg : Registry) : List String := reg.factorsMap.map (·.2)

/-- Modelled from the spec: constructing an `AbstractChord` from a
registered name string (§6 textual qualifier parsing, not under src/): a
base-vocabulary name parses to its table entry; a compound name parses as
a base name followed by one trailing modifier name, applied exactly as at
registration time. -/
def parseChordName (s : String) : Option ChordFactors :=
  match lookupBaseFactors s with
  | some f => some f
  | none =>
    baseChordFactorsTable.findSome? (fun b =>
      chordModifiers.findSome? (fun m =>
        if s = b.1 ++ m.1 ∧ (m.2.validOn b.2) = true then some (m.2.apply b.2)
        else none))

/-- `AbstractChord._inv_string` (`chords.py` lines 370-372). -/
def invMarker (inv : Nat) : String :=
  if inv ≠ 0 then "/" ++ toString inv else ""

/-- Error stand-in for `get_suffix`'s inverted-intervals branch
(`chords.py` lines 387-391), which drops into `pdb.set_trace()` and then
reads `self.root` — an attribute an `AbstractChord` does not have. -/
def suffixPdbMsg : String :=
  "pdb.set_trace; AttributeError: 'AbstractChord' object has no attribute 'root'"

/-- Error stand-in for `get_suffix`'s fallback branch (`chords.py` line
404): `self.assigned_name` is never assigned anywhere in the class, so
reading it raises `AttributeError` and the final `'(?)'` placeholder of
line 408 is unreachable. -/
def assignedNameMsg : String :=
  "AttributeError: 'AbstractChord' object has no attribute 'assigned_name'"

/-- `AbstractChord.get_suffix` (`chords.py` lines 378-408) for a chord
with the given factors and inversion: exact factors match, then
root-position intervals, then inversion-adjusted intervals (the
`pdb`/`self.root` branch), then the no-5 hypothesis (re-adding a perfect
fifth), then flattened intervals (note: returned *without* the inversion
marker, line 401), then the literal major triad, then the never-assigned
`assigned_name` fallback. -/
def getSuffix (reg : Registry) (f : ChordFactors) (inv : Nat) : Except String String :=
  let invString := invMarker inv
  let rootIntervals := factorsToIntervals f
  match lookupFactors reg.factorsMap f with
  | some name => .ok (name ++ invString)
  | none =>
    match lookupIntervals reg.intervalsMap rootIntervals with
    | some name => .ok (name ++ invString)
    | none =>
      let intervals := if inv ≠ 0 then invertIntervalList rootIntervals inv else rootIntervals
      match lookupIntervals reg.intervalsMap intervals with
      | some _ => .error suffixPdbMsg
      | none =>
        let rest : Except String String :=
          match lookupIntervals reg.intervalsMap (flattenList intervals) with
          | some name => .ok name
          | none =>
            if f = majorTriad then .ok ""
            else .error assignedNameMsg
        if hasDegree f 5 = false then
          match lookupIntervals reg.intervalsMap (sortInts (rootIntervals ++ [7])) with
          | some name => .ok (name ++ "(no5)" ++ invString)
          | none => rest
        else rest

/-- `AbstractChord.rarity` (`chords.py` lines 410-413):
`chord_name_rarities[factors_to_chord_names[self.factors]]` — a `KeyError`
when the factors are not a registry key. -/
def chordRarity (reg : Registry) (f : ChordFactors) : Except String Nat :=
  match lookupFactors reg.factorsMap f with
  | none => .error "KeyError: factors_to_chord_names"
  | some name =>
    match lookupName (finalRarities reg) name with
    | none => .error "KeyError: chord_name_rarities"
    | some r => .ok r

set_option maxHeartbeats 2000000 in
/-- The registry value computed by `buildRegistryE` (see
`buildRegistry_ok`), spelled out so that the claim checks below evaluate
against concrete data. -/
def builtRegistry : Registry where
  factorsMap :=
    [([(1, 0), (3, 0), (5, 0)], ""),
     ([(1, 0), (3, -1), (5, 0)], "m"),
     ([(1, 0), (3, 0), (5, 0), (7, -1)], "7"),
     ([(1, 0), (5, 0)], "5"),
     ([(1, 0), (3, -1), (5, 0), (7, -1)], "m7"),
     ([(1, 0), (3, 0), (5, 0), (7, 0)], "maj7"),
     ([(1, 0), (3, -1), (5, -1)], "dim"),
     ([(1, 0), (4, 0), (5, 0)], "sus4"),
     ([(1, 0), (2, 0), (5, 0)], "sus2"),
     ([(1, 0), (3, 0), (5, 0), (9, 0)], "add9"),
     ([(1, 0), (3, -1), (5, 0), (7, 0)], "mmaj7"),
     ([(1, 0), (3, -1), (5, -1), (7, -2)], "dim7"),
     ([(1, 0), (3, -1), (5, -1), (7, -1)], "hdim7"),
     ([(1, 0), (3, 0), (5, 0), (6, 0)], "6"),
     ([(1, 0), (3, -1), (5, 0), (6, 0)], "m6"),
     ([(1, 0), (3, 0), (5, 1), (7, -1)], "aug7"),
     ([(1, 0), (3, 0), (5, 0), (7, -1), (9, 0)], "9"),
     ([(1, 0), (3, 0), (5, 0), (7, 0), (9, 0)], "maj9"),
     ([(1, 0), (3, -1), (5, 0), (7, -1), (9, 0)], "m9"),
     ([(1, 0), (3, 0), (5, 1)], "aug"),
     ([(1, 0), (3, 0), (5, -1), (7, -1)], "7b5"),
     ([(1, 0), (3, 0), (5, 0), (7, -1), (9, 1)], "7#9"),
     ([(1, 0), (3, 0), (4, 0), (5, 0)], "add4"),
     ([(1, 0), (3, 0), (5, 0), (7, -1), (9, -1)], "7b9"),
     ([(1, 0), (3, -1), (5, -1), (7, -2), (9, 0)], "dim9"),
     ([(1, 0), (3, -1), (5, -1), (7, -2), (9, -1)], "dmin9"),
     ([(1, 0), (3, -1), (5, 0), (7, 0), (9, 0)], "mmaj9"),
     ([(1, 0), (3, -1), (5, -1), (7, -1), (9, -1)], "hdmin9"),
     ([(1, 0), (3, -1), (5, -1), (7, 0)], "dimM7"),
     ([(1, 0), (3, 0), (5, 1), (7, 0)], "augM7"),
     ([(1, 0), (3, 0), (5, 0), (7, -1), (9, 0), (11, 0)], "11"),
     ([(1, 0), (3, 0), (5, 0), (7, -1), (9, 0), (11, 0), (13, 0)], "13"),
     ([(1, 0), (3, -1), (5, 0), (7, -1), (9, 0), (11, 0)], "m11"),
     ([(1, 0), (3, -1), (5, 0), (7, -1), (9, 0), (11, 0), (13, 0)], "m13"),
     ([(1, 0), (3, 0), (5, 0), (7, 0), (9, 0), (11, 0)], "maj11"),
     ([(1, 0), (3, 0), (5, 0), (7, 0), (9, 0), (11, 0), (13, 0)], "maj13"),
     ([(1, 0), (3, 0), (5, 0), (11, 0)], "add11"),
     ([(1, 0), (3, 0), (5, 0), (13, 0)], "add13"),
     ([(1, 0), (3, -1), (5, -1), (7, -2), (9, 0), (11, 0)], "dim11"),
     ([(1, 0), (3, -1), (5, -1), (7, -2), (9, 0), (11, 0), (13, 0)], "dim13"),
     ([(1, 0), (3, -1), (5, 0), (7, 0), (9, 0), (11, 0)], "mmaj11"),
     ([(1, 0), (3, -1), (5, 0), (7, 0), (9, 0), (11, 0), (13, 0)], "mmaj13"),
     ([(1, 0), (3, -1), (5, 0), (9, 0)], "madd9"),
     ([(1, 0), (3, -1), (5, 0), (11, 0)], "madd11"),
     ([(1, 0), (3, -1), (5, 0), (13, 0)], "madd13"),
     ([(1, 0), (4, 0), (5, 0), (7, -1)], "7sus4"),
     ([(1, 0), (2, 0), (5, 0), (7, -1)], "7sus2"),
     ([(1, 0), (3, 0), (5, 0), (7, -1), (11, 0)], "7add11"),
     ([(1, 0), (3, 0), (5, 0), (7, -1), (13, 0)], "7add13"),
     ([(1, 0), (3, -1), (5, 0), (7, -1), (11, 0)], "m7add11"),
     ([(1, 0), (3, -1), (5, 0), (7, -1), (13, 0)], "m7add13"),
     ([(1, 0), (4, 0), (5, 0), (7, 0)], "maj7sus4"),
     ([(1, 0), (2, 0), (5, 0), (7, 0)], "maj7sus2"),
     ([(1, 0), (3, 0), (5, 0), (7, 0), (11, 0)], "maj7add11"),
     ([(1, 0), (3, 0), (5, 0), (7, 0), (13, 0)], "maj7add13"),
     ([(1, 0), (4, 0), (5, -1)], "dimsus4"),
     ([(1, 0), (2, 0), (5, -1)], "dimsus2"),
     ([(1, 0), (3, -1), (5, -1), (9, 0)], "dimadd9"),
     ([(1, 0), (3, -1), (5, -1), (11, 0)], "dimadd11"),
     ([(1, 0), (3, -1), (5, -1), (13, 0)], "dimadd13"),
     ([(1, 0), (4, 0), (5, 0), (9, 0)], "sus4add9"),
     ([(1, 0), (4, 0), (5, 0), (11, 0)], "sus4add11"),
     ([(1, 0), (4, 0), (5, 0), (13, 0)], "sus4add13"),
     ([(1, 0), (2, 0), (5, 0), (9, 0)], "sus2add9"),
     ([(1, 0), (2, 0), (5, 0), (11, 0)], "sus2add11"),
     ([(1, 0), (2, 0), (5, 0), (13, 0)], "sus2add13"),
     ([(1, 0), (3, -1), (5, 0), (7, 0), (11, 0)], "mmaj7add11"),
     ([(1, 0), (3, -1), (5, 0), (7, 0), (13, 0)], "mmaj7add13"),
     ([(1, 0), (4, 0), (5, -1), (7, -2)], "dim7sus4"),
     ([(1, 0), (2, 0), (5, -1), (7, -2)], "dim7sus2"),
     ([(1, 0), (3, -1), (5, -1), (7, -2), (11, 0)], "dim7add11"),
     ([(1, 0), (3, -1), (5, -1), (7, -2), (13, 0)], "dim7add13"),
     ([(1, 0), (4, 0), (5, -1), (7, -1)], "hdim7sus4"),
     ([(1, 0), (2, 0), (5, -1), (7, -1)], "hdim7sus2"),
     ([(1, 0), (3, -1), (5, -1), (7, -1), (9, 0)], "hdim7add9"),
     ([(1, 0), (3, -1), (5, -1), (7, -1), (11, 0)], "hdim7add11"),
     ([(1, 0), (3, -1), (5, -1), (7, -1), (13, 0)], "hdim7add13"),
     ([(1, 0), (4, 0), (5, 0), (6, 0)], "6sus4"),
     ([(1, 0), (2, 0), (5, 0), (6, 0)], "6sus2"),
     ([(1, 0), (3, 0), (5, 0), (6, 0), (9, 0)], "6add9"),
     ([(1, 0), (3, 0), (5, 0), (6, 0), (11, 0)], "6add11"),
     ([(1, 0), (3, 0), (5, 0), (6, 0), (13, 0)], "6add13"),
     ([(1, 0), (3, -1), (5, 0), (6, 0), (9, 0)], "m6add9"),
     ([(1, 0), (3, -1), (5, 0), (6, 0), (11, 0)], "m6add11"),
     ([(1, 0), (3, -1), (5, 0), (6, 0), (13, 0)], "m6add13"),
     ([(1, 0), (4, 0), (5, 1), (7, -1)], "aug7sus4"),
     ([(1, 0), (2, 0), (5, 1), (7, -1)], "aug7sus2"),
     ([(1, 0), (3, 0), (5, 1), (7, -1), (9, 0)], "aug7add9"),
     ([(1, 0), (3, 0), (5, 1), (7, -1), (11, 0)], "aug7add11"),
     ([(1, 0), (3, 0), (5, 1), (7, -1), (13, 0)], "aug7add13"),
     ([(1, 0), (4, 0), (5, 0), (7, -1), (9, 0)], "9sus4"),
     ([(1, 0), (2, 0), (5, 0), (7, -1), (9, 0)], "9sus2"),
     ([(1, 0), (3, 0), (5, 0), (7, -1), (9, 0), (13, 0)], "9add13"),
     ([(1, 0), (4, 0), (5, 0), (7, 0), (9, 0)], "maj9sus4"),
     ([(1, 0), (2, 0), (5, 0), (7, 0), (9, 0)], "maj9sus2"),
     ([(1, 0), (3, 0), (5, 0), (7, 0), (9, 0), (13, 0)], "maj9add13"),
     ([(1, 0), (3, -1), (5, 0), (7, -1), (9, 0), (13, 0)], "m9add13"),
     ([(1, 0), (4, 0), (5, 1)], "augsus4"),
     ([(1, 0), (2, 0), (5, 1)], "augsus2"),
     ([(1, 0), (3, 0), (5, 1), (9, 0)], "augadd9"),
     ([(1, 0), (3, 0), (5, 1), (11, 0)], "augadd11"),
     ([(1, 0), (3, 0), (5, 1), (13, 0)], "augadd13"),
     ([(1, 0), (3, 0), (5, -1), (7, -1), (9, 0)], "7b5add9"),
     ([(1, 0), (3, 0), (5, -1), (7, -1), (11, 0)], "7b5add11"),
     ([(1, 0), (3, 0), (5, -1), (7, -1), (13, 0)], "7b5add13"),
     ([(1, 0), (4, 0), (5, 0), (7, -1), (9, 1)], "7#9sus4"),
     ([(1, 0), (2, 0), (5, 0), (7, -1), (9, 1)], "7#9sus2"),
     ([(1, 0), (3, 0), (5, 0), (7, -1), (9, 1), (11, 0)], "7#9add11"),
     ([(1, 0), (3, 0), (5, 0), (7, -1), (9, 1), (13, 0)], "7#9add13"),
     ([(1, 0), (4, 0), (5, 0), (7, -1), (9, -1)], "7b9sus4"),
     ([(1, 0), (2, 0), (5, 0), (7, -1), (9, -1)], "7b9sus2"),
     ([(1, 0), (3, 0), (5, 0), (7, -1), (9, -1), (11, 0)], "7b9add11"),
     ([(1, 0), (3, 0), (5, 0), (7, -1), (9, -1), (13, 0)], "7b9add13"),
     ([(1, 0), (4, 0), (5, -1), (7, -2), (9, 0)], "dim9sus4"),
     ([(1, 0), (2, 0), (5, -1), (7, -2), (9, 0)], "dim9sus2"),
     ([(1, 0), (3, -1), (5, -1), (7, -2), (9, 0), (13, 0)], "dim9add13"),
     ([(1, 0), (4, 0), (5, -1), (7, -2), (9, -1)], "dmin9sus4"),
     ([(1, 0), (2, 0), (5, -1), (7, -2), (9, -1)], "dmin9sus2"),
     ([(1, 0), (3, -1), (5, -1), (7, -2), (9, -1), (11, 0)], "dmin9add11"),
     ([(1, 0), (3, -1), (5, -1), (7, -2), (9, -1), (13, 0)], "dmin9add13"),
     ([(1, 0), (3, -1), (5, 0), (7, 0), (9, 0), (13, 0)], "mmaj9add13"),
     ([(1, 0), (4, 0), (5, -1), (7, -1), (9, -1)], "hdmin9sus4"),
     ([(1, 0), (2, 0), (5, -1), (7, -1), (9, -1)], "hdmin9sus2"),
     ([(1, 0), (3, -1), (5, -1), (7, -1), (9, -1), (11, 0)], "hdmin9add11"),
     ([(1, 0), (3, -1), (5, -1), (7, -1), (9, -1), (13, 0)], "hdmin9add13"),
     ([(1, 0), (4, 0), (5, -1), (7, 0)], "dimM7sus4"),
     ([(1, 0), (2, 0), (5, -1), (7, 0)], "dimM7sus2"),
     ([(1, 0), (3, -1), (5, -1), (7, 0), (9, 0)], "dimM7add9"),
     ([(1, 0), (3, -1), (5, -1), (7, 0), (11, 0)], "dimM7add11"),
     ([(1, 0), (3, -1), (5, -1), (7, 0), (13, 0)], "dimM7add13"),
     ([(1, 0), (4, 0), (5, 1), (7, 0)], "augM7sus4"),
     ([(1, 0), (2, 0), (5, 1), (7, 0)], "augM7sus2"),
     ([(1, 0), (3, 0), (5, 1), (7, 0), (9, 0)], "augM7add9"),
     ([(1, 0), (3, 0), (5, 1), (7, 0), (11, 0)], "augM7add11"),
     ([(1, 0), (3, 0), (5, 1), (7, 0), (13, 0)], "augM7add13"),
     ([(1, 0), (4, 0), (5, 0), (7, -1), (9, 0), (11, 0)], "11sus4"),
     ([(1, 0), (2, 0), (5, 0), (7, -1), (9, 0), (11, 0)], "11sus2"),
     ([(1, 0), (4, 0), (5, 0), (7, -1), (9, 0), (11, 0), (13, 0)], "13sus4"),
     ([(1, 0), (2, 0), (5, 0), (7, -1), (9, 0), (11, 0), (13, 0)], "13sus2"),
     ([(1, 0), (4, 0), (5, 0), (7, 0), (9, 0), (11, 0)], "maj11sus4"),
     ([(1, 0), (2, 0), (5, 0), (7, 0), (9, 0), (11, 0)], "maj11sus2"),
     ([(1, 0), (4, 0), (5, 0), (7, 0), (9, 0), (11, 0), (13, 0)], "maj13sus4"),
     ([(1, 0), (2, 0), (5, 0), (7, 0), (9, 0), (11, 0), (13, 0)], "maj13sus2"),
     ([(1, 0), (4, 0), (5, -1), (7, -2), (9, 0), (11, 0)], "dim11sus4"),
     ([(1, 0), (2, 0), (5, -1), (7, -2), (9, 0), (11, 0)], "dim11sus2"),
     ([(1, 0), (4, 0), (5, -1), (7, -2), (9, 0), (11, 0), (13, 0)], "dim13sus4"),
     ([(1, 0), (2, 0), (5, -1), (7, -2), (9, 0), (11, 0), (13, 0)], "dim13sus2")]
  intervalsMap :=
    [([0, 4, 7], ""),
     ([0, 3, 7], "m"),
     ([0, 4, 7, 10], "7"),
     ([0, 7], "5"),
     ([0, 3, 7, 10], "m7"),
     ([0, 4, 7, 11], "maj7"),
     ([0, 3, 6], "dim"),
     ([0, 5, 7], "sus4"),
     ([0, 2, 7], "sus2"),
     ([0, 4, 7, 14], "add9"),
     ([0, 3, 7, 11], "mmaj7"),
     ([0, 3, 6, 9], "dim7"),
     ([0, 3, 6, 10], "hdim7"),
     ([0, 4, 7, 9], "6"),
     ([0, 3, 7, 9], "m6"),
     ([0, 4, 8, 10], "aug7"),
     ([0, 4, 7, 10, 14], "9"),
     ([0, 4, 7, 11, 14], "maj9"),
     ([0, 3, 7, 10, 14], "m9"),
     ([0, 4, 8], "aug"),
     ([0, 4, 6, 10], "7b5"),
     ([0, 4, 7, 10, 15], "7#9"),
     ([0, 4, 5, 7], "add4"),
     ([0, 4, 7, 10, 13], "7b9"),
     ([0, 3, 6, 9, 14], "dim9"),
     ([0, 3, 6, 9, 13], "dmin9"),
     ([0, 3, 7, 11, 14], "mmaj9"),
     ([0, 3, 6, 10, 13], "hdmin9"),
     ([0, 3, 6, 11], "dimM7"),
     ([0, 4, 8, 11], "augM7"),
     ([0, 4, 7, 10, 14, 17], "11"),
     ([0, 4, 7, 10, 14, 17, 21], "13"),
     ([0, 3, 7, 10, 14, 17], "m11"),
     ([0, 3, 7, 10, 14, 17, 21], "m13"),
     ([0, 4, 7, 11, 14, 17], "maj11"),
     ([0, 4, 7, 11, 14, 17, 21], "maj13"),
     ([0, 4, 7, 17], "add11"),
     ([0, 4, 7, 21], "add13"),
     ([0, 3, 6, 9, 14, 17], "dim11"),
     ([0, 3, 6, 9, 14, 17, 21], "dim13"),
     ([0, 3, 7, 11, 14, 17], "mmaj11"),
     ([0, 3, 7, 11, 14, 17, 21], "mmaj13"),
     ([0, 3, 7, 14], "madd9"),
     ([0, 3, 7, 17], "madd11"),
     ([0, 3, 7, 21], "madd13"),
     ([0, 5, 7, 10], "7sus4"),
     ([0, 2, 7, 10], "7sus2"),
     ([0, 4, 7, 10, 17], "7add11"),
     ([0, 4, 7, 10, 21], "7add13"),
     ([0, 3, 7, 10, 17], "m7add11"),
     ([0, 3, 7, 10, 21], "m7add13"),
     ([0, 5, 7, 11], "maj7sus4"),
     ([0, 2, 7, 11], "maj7sus2"),
     ([0, 4, 7, 11, 17], "maj7add11"),
     ([0, 4, 7, 11, 21], "maj7add13"),
     ([0, 5, 6], "dimsus4"),
     ([0, 2, 6], "dimsus2"),
     ([0, 3, 6, 14], "dimadd9"),
     ([0, 3, 6, 17], "dimadd11"),
     ([0, 3, 6, 21], "dimadd13"),
     ([0, 5, 7, 14], "sus4add9"),
     ([0, 5, 7, 17], "sus4add11"),
     ([0, 5, 7, 21], "sus4add13"),
     ([0, 2, 7, 14], "sus2add9"),
     ([0, 2, 7, 17], "sus2add11"),
     ([0, 2, 7, 21], "sus2add13"),
     ([0, 3, 7, 11, 17], "mmaj7add11"),
     ([0, 3, 7, 11, 21], "mmaj7add13"),
     ([0, 5, 6, 9], "dim7sus4"),
     ([0, 2, 6, 9], "dim7sus2"),
     ([0, 3, 6, 9, 17], "dim7add11"),
     ([0, 3, 6, 9, 21], "dim7add13"),
     ([0, 5, 6, 10], "hdim7sus4"),
     ([0, 2, 6, 10], "hdim7sus2"),
     ([0, 3, 6, 10, 14], "hdim7add9"),
     ([0, 3, 6, 10, 17], "hdim7add11"),
     ([0, 3, 6, 10, 21], "hdim7add13"),
     ([0, 5, 7, 9], "6sus4"),
     ([0, 2, 7, 9], "6sus2"),
     ([0, 4, 7, 9, 14], "6add9"),
     ([0, 4, 7, 9, 17], "6add11"),
     ([0, 4, 7, 9, 21], "6add13"),
     ([0, 3, 7, 9, 14], "m6add9"),
     ([0, 3, 7, 9, 17], "m6add11"),
     ([0, 3, 7, 9, 21], "m6add13"),
     ([0, 5, 8, 10], "aug7sus4"),
     ([0, 2, 8, 10], "aug7sus2"),
     ([0, 4, 8, 10, 14], "aug7add9"),
     ([0, 4, 8, 10, 17], "aug7add11"),
     ([0, 4, 8, 10, 21], "aug7add13"),
     ([0, 5, 7, 10, 14], "9sus4"),
     ([0, 2, 7, 10, 14], "9sus2"),
     ([0, 4, 7, 10, 14, 21], "9add13"),
     ([0, 5, 7, 11, 14], "maj9sus4"),
     ([0, 2, 7, 11, 14], "maj9sus2"),
     ([0, 4, 7, 11, 14, 21], "maj9add13"),
     ([0, 3, 7, 10, 14, 21], "m9add13"),
     ([0, 5, 8], "augsus4"),
     ([0, 2, 8], "augsus2"),
     ([0, 4, 8, 14], "augadd9"),
     ([0, 4, 8, 17], "augadd11"),
     ([0, 4, 8, 21], "augadd13"),
     ([0, 4, 6, 10, 14], "7b5add9"),
     ([0, 4, 6, 10, 17], "7b5add11"),
     ([0, 4, 6, 10, 21], "7b5add13"),
     ([0, 5, 7, 10, 15], "7#9sus4"),
     ([0, 2, 7, 10, 15], "7#9sus2"),
     ([0, 4, 7, 10, 15, 17], "7#9add11"),
     ([0, 4, 7, 10, 15, 21], "7#9add13"),
     ([0, 5, 7, 10, 13], "7b9sus4"),
     ([0, 2, 7, 10, 13], "7b9sus2"),
     ([0, 4, 7, 10, 13, 17], "7b9add11"),
     ([0, 4, 7, 10, 13, 21], "7b9add13"),
     ([0, 5, 6, 9, 14], "dim9sus4"),
     ([0, 2, 6, 9, 14], "dim9sus2"),
     ([0, 3, 6, 9, 14, 21], "dim9add13"),
     ([0, 5, 6, 9, 13], "dmin9sus4"),
     ([0, 2, 6, 9, 13], "dmin9sus2"),
     ([0, 3, 6, 9, 13, 17], "dmin9add11"),
     ([0, 3, 6, 9, 13, 21], "dmin9add13"),
     ([0, 3, 7, 11, 14, 21], "mmaj9add13"),
     ([0, 5, 6, 10, 13], "hdmin9sus4"),
     ([0, 2, 6, 10, 13], "hdmin9sus2"),
     ([0, 3, 6, 10, 13, 17], "hdmin9add11"),
     ([0, 3, 6, 10, 13, 21], "hdmin9add13"),
     ([0, 5, 6, 11], "dimM7sus4"),
     ([0, 2, 6, 11], "dimM7sus2"),
     ([0, 3, 6, 11, 14], "dimM7add9"),
     ([0, 3, 6, 11, 17], "dimM7add11"),
     ([0, 3, 6, 11, 21], "dimM7add13"),
     ([0, 5, 8, 11], "augM7sus4"),
     ([0, 2, 8, 11], "augM7sus2"),
     ([0, 4, 8, 11, 14], "augM7add9"),
     ([0, 4, 8, 11, 17], "augM7add11"),
     ([0, 4, 8, 11, 21], "augM7add13"),
     ([0, 5, 7, 10, 14, 17], "11sus4"),
     ([0, 2, 7, 10, 14, 17], "11sus2"),
     ([0, 5, 7, 10, 14, 17, 21], "13sus4"),
     ([0, 2, 7, 10, 14, 17, 21], "13sus2"),
     ([0, 5, 7, 11, 14, 17], "maj11sus4"),
     ([0, 2, 7, 11, 14, 17], "maj11sus2"),
     ([0, 5, 7, 11, 14, 17, 21], "maj13sus4"),
     ([0, 2, 7, 11, 14, 17, 21], "maj13sus2"),
     ([0, 5, 6, 9, 14, 17], "dim11sus4"),
     ([0, 2, 6, 9, 14, 17], "dim11sus2"),
     ([0, 5, 6, 9, 14, 17, 21], "dim13sus4"),
     ([0, 2, 6, 9, 14, 17, 21], "dim13sus2")]
  newRarities :=
    [(2, "madd9"),
     (3, "madd11"),
     (4, "madd13"),
     (1, "7sus4"),
     (1, "7sus2"),
     (3, "7add11"),
     (4, "7add13"),
     (4, "m7add11"),
     (5, "m7add13"),
     (2, "maj7sus4"),
     (2, "maj7sus2"),
     (4, "maj7add11"),
     (5, "maj7add13"),
     (2, "dimsus4"),
     (2, "dimsus2"),
     (3, "dimadd9"),
     (4, "dimadd11"),
     (5, "dimadd13"),
     (3, "sus4add9"),
     (4, "sus4add11"),
     (5, "sus4add13"),
     (3, "sus2add9"),
     (4, "sus2add11"),
     (5, "sus2add13"),
     (5, "mmaj7add11"),
     (6, "mmaj7add13"),
     (3, "dim7sus4"),
     (3, "dim7sus2"),
     (5, "dim7add11"),
     (6, "dim7add13"),
     (3, "hdim7sus4"),
     (3, "hdim7sus2"),
     (4, "hdim7add9"),
     (5, "hdim7add11"),
     (6, "hdim7add13"),
     (3, "6sus4"),
     (3, "6sus2"),
     (4, "6add9"),
     (5, "6add11"),
     (6, "6add13"),
     (4, "m6add9"),
     (5, "m6add11"),
     (6, "m6add13"),
     (3, "aug7sus4"),
     (3, "aug7sus2"),
     (4, "aug7add9"),
     (5, "aug7add11"),
     (6, "aug7add13"),
     (3, "9sus4"),
     (3, "9sus2"),
     (6, "9add13"),
     (3, "maj9sus4"),
     (3, "maj9sus2"),
     (6, "maj9add13"),
     (6, "m9add13"),
     (3, "augsus4"),
     (3, "augsus2"),
     (4, "augadd9"),
     (5, "augadd11"),
     (6, "augadd13"),
     (5, "7b5add9"),
     (6, "7b5add11"),
     (7, "7b5add13"),
     (4, "7#9sus4"),
     (4, "7#9sus2"),
     (6, "7#9add11"),
     (7, "7#9add13"),
     (4, "7b9sus4"),
     (4, "7b9sus2"),
     (6, "7b9add11"),
     (7, "7b9add13"),
     (4, "dim9sus4"),
     (4, "dim9sus2"),
     (7, "dim9add13"),
     (4, "dmin9sus4"),
     (4, "dmin9sus2"),
     (6, "dmin9add11"),
     (7, "dmin9add13"),
     (7, "mmaj9add13"),
     (4, "hdmin9sus4"),
     (4, "hdmin9sus2"),
     (6, "hdmin9add11"),
     (7, "hdmin9add13"),
     (4, "dimM7sus4"),
     (4, "dimM7sus2"),
     (5, "dimM7add9"),
     (6, "dimM7add11"),
     (7, "dimM7add13"),
     (4, "augM7sus4"),
     (4, "augM7sus2"),
     (5, "augM7add9"),
     (6, "augM7add11"),
     (7, "augM7add13"),
     (4, "11sus4"),
     (4, "11sus2"),
     (4, "13sus4"),
     (4, "13sus2"),
     (4, "maj11sus4"),
     (4, "maj11sus2"),
     (4, "maj13sus4"),
     (4, "maj13sus2"),
     (5, "dim11sus4"),
     (5, "dim11sus2"),
     (5, "dim13sus4"),
     (5, "dim13sus2")]

set_option maxHeartbeats 4000000 in
set_option maxRecDepth 100000 in
/-- The registry build runs to completion — in particular the dead
second-modifier branch (with its latent `NameError`) never fires — and
produces `builtRegistry`. -/
theorem buildRegistry_ok : buildRegistryE = .ok builtRegistry := by rfl

instance {ε α : Type} [DecidableEq ε] [DecidableEq α] : DecidableEq (Except ε α)
  | .ok a, .ok b =>
    match decEq a b with
    | isTrue h => isTrue (by rw [h])
    | isFalse h => isFalse (fun hc => h (Except.ok.inj hc))
  | .ok _, .error _ => isFalse (fun hc => Except.noConfusion hc)
  | .error _, .ok _ => isFalse (fun hc => Except.noConfusion hc)
  | .error e, .error e' =>
    match decEq e e' with
    | isTrue h => isTrue (by rw [h])
    | isFalse h => isFalse (fun hc => h (Except.error.inj hc))

/-- The executable round-trip check behind claim C1: every registered name,
re-parsed into factors and read back through `get_suffix` at every valid
inversion index, reproduces the name with its inversion marker. -/
def c1Check : Bool :=
  (registryNames builtRegistry).all (fun n =>
    match parseChordName n with
    | none => false
    | some f => (List.range f.length).all (fun i =>
        decide (getSuffix builtRegistry f i = .ok (n ++ invMarker i))))

set_option maxHeartbeats 4000000 in
set_option maxRecDepth 100000 in
/-- The check `c1Check` evaluates to `true`. -/
theorem c1Check_true : c1Check = true := by rfl

/-- Every factor pair occurring in a registered factor-set passes the
full `Interval.from_degree` validation, and its value is the one
`fromDegreeValue` computes — so the value-level interval shortcut used by
`factorsToIntervals` agrees with the validated construction on the whole
registry. -/
theorem builtRegistry_factors_constructible :
    builtRegistry.factorsMap.all (fun e => e.1.all (fun p =>
      match fromDegree p.1 p.2 with
      | .ok iv => decide (iv.value = fromDegreeValue p.1 p.2)
      | .error _ => false)) = true := by decide

/-- C1: for every chord name registered in the naming registry (a key of
`chord_names_to_factors`) and every valid inversion index `i` for that
chord (0 ≤ i ≤ order−1, `chords.py` line 330), constructing an
`AbstractChord` from that name parses to a factor-set, and with any valid
inversion the suffix read back is the same name, with the `/i` inversion
marker exactly when `i` is non-zero (`invMarker`). -/
theorem registry_name_suffix_roundtrip :
    ∀ n ∈ registryNames builtRegistry, ∃ f, parseChordName n = some f ∧
      ∀ i < f.length, getSuffix builtRegistry f i = .ok (n ++ invMarker i) := by
  intro n hn
  have h1 := (List.all_eq_true.mp c1Check_true) n hn
  cases hf : parseChordName n with
  | none => rw [hf] at h1; cases h1
  | some f =>
    rw [hf] at h1
    refine ⟨f, rfl, fun i hi => ?_⟩
    have h2 := (List.all_eq_true.mp h1) i (List.mem_range.mpr hi)
    exact of_decide_eq_true h2

/-- Witness for `registry_name_suffix_roundtrip` at the registered name
"m7": it parses, and every inversion (0..3) reads back as "m7", "m7/1",
"m7/2", "m7/3". -/
theorem registry_name_suffix_roundtrip_witness :
    ∃ f, parseChordName "m7" = some f ∧
      ∀ i < f.length, getSuffix builtRegistry f i = .ok ("m7" ++ invMarker i) :=
  registry_name_suffix_roundtrip "m7" (by decide)

/-- C3: the second-modifier pass registers nothing.  The build completes
without error (so the dead branch guarding the undefined `mod2_name` never
fires), "dimsus4" is registered and "add9" is a distinct modifier valid on
its factors, yet the compound name "dimsus4add9" is neither registered nor
given a rarity — because line 1229 fetches `modifier2` by `mod_name`
instead of `mod_name2`, making `modifier2 is not modifier` always false. -/
theorem compound_modifier_names_never_registered :
    (∃ reg, buildRegistryE = .ok reg) ∧
    lookupModifier "sus4" = some ⟨[(4, 0)], [], [3]⟩ ∧
    lookupModifier "add9" = some ⟨[(9, 0)], [], []⟩ ∧
    (⟨[(4, 0)], [], [3]⟩ : ChordQualifier) ≠ ⟨[(9, 0)], [], []⟩ ∧
    ChordQualifier.validOn ⟨[(9, 0)], [], []⟩
      (ChordQualifier.apply ⟨[(4, 0)], [], [3]⟩ [(1, 0), (3, -1), (5, -1)]) = true ∧
    "dimsus4" ∈ registryNames builtRegistry ∧
    "dimsus4add9" ∉ registryNames builtRegistry ∧
    lookupName (finalRarities builtRegistry) "dimsus4add9" = none :=
  ⟨⟨builtRegistry, buildRegistry_ok⟩, rfl, rfl, by decide, by decide,
   by decide, by decide, by decide⟩

/-- C4 counterexample: "m7" is registered and validly permits fifth
removal, yet no no-5 variant of it is registered: its fifth-less
factor-set is not a key of `factors_to_chord_names` and no "m7(no5)" name
exists in the registry. -/
theorem no5_variant_registration_counterexample :
    "m7" ∈ registryNames builtRegistry ∧
    lookupFactors builtRegistry.factorsMap [(1, 0), (3, -1), (7, -1)] = none ∧
    "m7(no5)" ∉ registryNames builtRegistry :=
  ⟨by decide, by decide, by decide⟩

/-- C4 (amended): the registry build registers no no-5 variants at all —
every registered factor-set retains its fifth (the no-5 pass was removed,
`chords.py` line 1164) — and a fifth-less chord is instead named at
lookup time: `get_suffix` re-inserts a perfect fifth and reports the
parent name with a "(no5)" mark (lines 392-396). -/
theorem no5_variants_absent_from_registry :
    (∀ e ∈ builtRegistry.factorsMap, hasDegree e.1 5 = true) ∧
    getSuffix builtRegistry [(1, 0), (3, -1), (7, -1)] 0 = .ok "m7(no5)" :=
  ⟨by decide, by decide⟩

/-- Witness for `no5_variants_absent_from_registry` at the registry's
first entry (the major triad). -/
theorem no5_variants_absent_from_registry_witness :
    hasDegree [(1, 0), (3, 0), (5, 0)] 5 = true :=
  no5_variants_absent_from_registry.1 ([(1, 0), (3, 0), (5, 0)], "") (by decide)

/-- C9: at the unregistered factor-set `{1:0, 2:0, 3:0, 5:0}` the rarity
property raises the claimed lookup error, but the suffix property does
*not* return a placeholder: every lookup branch fails, and the fallback at
`chords.py` line 404 reads `self.assigned_name`, an attribute that is
never assigned anywhere, so the suffix read raises `AttributeError`
instead of reaching the `'(?)'` placeholder of line 408. -/
theorem unregistered_factors_suffix_and_rarity :
    lookupFactors builtRegistry.factorsMap [(1, 0), (2, 0), (3, 0), (5, 0)] = none ∧
    chordRarity builtRegistry [(1, 0), (2, 0), (3, 0), (5, 0)] =
      .error "KeyError: factors_to_chord_names" ∧
    getSuffix builtRegistry [(1, 0), (2, 0), (3, 0), (5, 0)] 0 =
      .error assignedNameMsg :=
  ⟨by decide, by decide, by decide⟩

/-! ## The matcher (claim C7; src/src/chords.py lines 1264-1395)

The per-candidate scores (precision/recall from `util.precision_recall`,
likelihood with the assume-root penalty, consonance) are computed by code
that is not under `src/` (`notes.py`, `util.py`); a candidate here carries
those already-computed scores.  Python's builtin `round` operates on binary
floats, so the two roundings applied when storing scores (`round(x, 2)`,
`round(x, 3)`, lines 1322-1325) enter the model as parameters `round2`,
`round3`; the retention, ranking, truncation and defaulting logic below is
translated from `matching_chords` and `most_likely_chord` and is proved
for *every* choice of rounding function. -/

/-- A candidate chord as seen by the retention loop of `matching_chords`:
its identity, its four scores, and whether its bass equals the note-list's
first note (the `candidate.bass == note_list[0]` test of line 1317). -/
structure MatchCandidate where
  name : String
  recallScore : ℚ
  precision : ℚ
  likelihood : ℚ
  consonance : ℚ
  bassIsRoot : Bool
  deriving Repr, DecidableEq

/-- A retained candidate with its stored score dict
`{'recall': round(recall, 2), 'precision': round(precision, 2),
'likelihood': round(likelihood, 2), 'consonance': round(consonance, 3)}`
(`chords.py` lines 1322-1325). -/
structure ScoredCandidate where
  cand : MatchCandidate
  recallScore : ℚ
  precision : ℚ
  likelihood : ℚ
  consonance : ℚ
  deriving Repr, DecidableEq

/-- The sort key of `chords.py` lines 1329-1332: the stored
(recall, precision, likelihood, consonance) tuple, compared
lexicographically as Python compares tuples. -/
def scoreKey (s : ScoredCandidate) : ℚ ×ₗ (ℚ ×ₗ (ℚ ×ₗ ℚ)) :=
  toLex (s.recallScore, toLex (s.precision, toLex (s.likelihood, s.consonance)))

/-- `sorted(..., reverse=True)` ordering: `x` may come before `y` iff the
key of `y` is at most the key of `x`. -/
def rankedBefore (x y : ScoredCandidate) : Prop := scoreKey y ≤ scoreKey x

instance : DecidableRel rankedBefore := fun x y => by
  unfold rankedBefore; infer_instance

instance : IsTotal ScoredCandidate rankedBefore :=
  ⟨fun a b => (le_total (scoreKey b) (scoreKey a)).imp id id⟩

instance : IsTrans ScoredCandidate rankedBefore :=
  ⟨fun _ _ _ hab hbc => le_trans hbc hab⟩

/-- `matching_chords` (`chords.py` lines 1264-1333, `display=False` path):
a candidate is retained only if it passes the root test
(`(not require_root) or (candidate.bass == note_list[0])`, line 1317) and
clears the three minimum thresholds on its raw scores (line 1321); the
retained candidates are stored with rounded scores, ranked by the stored
(recall, precision, likelihood, consonance) tuple descending, and
truncated to `max_results` (lines 1328-1333). -/
def matchingChords (round2 round3 : ℚ → ℚ) (cands : List MatchCandidate)
    (requireRoot : Bool) (minRecall minPrecision minLikelihood : ℚ)
    (maxResults : ℕ) : List ScoredCandidate :=
  let retained := cands.filterMap (fun c =>
    if (!requireRoot || c.bassIsRoot) = true then
      if c.recallScore ≥ minRecall ∧ c.precision ≥ minPrecision ∧
         c.likelihood ≥ minLikelihood then
        some ⟨c, round2 c.recallScore, round2 c.precision,
              round2 c.likelihood, round3 c.consonance⟩
      else none
    else none)
  (List.insertionSort rankedBefore retained).take maxResults

/-- `most_likely_chord` (`chords.py` lines 1380-1395): any of the three
minimum-score thresholds not supplied by the caller is defaulted to 0.0,
`matching_chords` is run, and the first (highest-ranked) candidate is
returned (`list(candidates.keys())[0]`; `none` models the `IndexError` on
an empty result). -/
def mostLikelyChord (round2 round3 : ℚ → ℚ) (cands : List MatchCandidate)
    (requireRoot : Bool) (minRecall? minPrecision? minLikelihood? : Option ℚ)
    (maxResults : ℕ) : Option ScoredCandidate :=
  (matchingChords round2 round3 cands requireRoot (minRecall?.getD 0)
    (minPrecision?.getD 0) (minLikelihood?.getD 0) maxResults).head?

/-- C7: `matching_chords` retains a candidate only if its recall,
precision and likelihood clear the respective minimums; the returned
candidates are ranked by the stored (recall, precision, likelihood,
consonance) tuple descending and truncated to at most `max_results`
entries; and `most_likely_chord` defaults exactly the unsupplied minimum
thresholds to 0.0 before delegating to `matching_chords` and taking the
top candidate.  Proved for every rounding function. -/
theorem matching_chords_retention_ranking_truncation
    (round2 round3 : ℚ → ℚ) (cands : List MatchCandidate) (requireRoot : Bool)
    (minRecall minPrecision minLikelihood : ℚ) (maxResults : ℕ) :
    (∀ s ∈ matchingChords round2 round3 cands requireRoot minRecall
        minPrecision minLikelihood maxResults,
      s.cand.recallScore ≥ minRecall ∧ s.cand.precision ≥ minPrecision ∧
        s.cand.likelihood ≥ minLikelihood) ∧
    (matchingChords round2 round3 cands requireRoot minRecall minPrecision
        minLikelihood maxResults).Sorted rankedBefore ∧
    (matchingChords round2 round3 cands requireRoot minRecall minPrecision
        minLikelihood maxResults).length ≤ maxResults ∧
    (∀ maxR : ℕ,
      mostLikelyChord round2 round3 cands requireRoot none none none maxR =
        (matchingChords round2 round3 cands requireRoot 0 0 0 maxR).head?) ∧
    (∀ a b c : ℚ, ∀ maxR : ℕ,
      mostLikelyChord round2 round3 cands requireRoot
          (some a) (some b) (some c) maxR =
        (matchingChords round2 round3 cands requireRoot a b c maxR).head?) := by
  refine ⟨?_, ?_, ?_, fun _ => rfl, fun _ _ _ _ => rfl⟩
  · intro s hs
    have hs1 : s ∈ List.insertionSort rankedBefore
        (cands.filterMap (fun c =>
          if (!requireRoot || c.bassIsRoot) = true then
            if c.recallScore ≥ minRecall ∧ c.precision ≥ minPrecision ∧
               c.likelihood ≥ minLikelihood then
              some ⟨c, round2 c.recallScore, round2 c.precision,
                    round2 c.likelihood, round3 c.consonance⟩
            else none
          else none)) := List.take_subset _ _ hs
    have hs2 := (List.perm_insertionSort rankedBefore _).mem_iff.mp hs1
    rcases List.mem_filterMap.mp hs2 with ⟨c, _, hc⟩
    by_cases h1 : (!requireRoot || c.bassIsRoot) = true
    · rw [if_pos h1] at hc
      by_cases h2 : c.recallScore ≥ minRecall ∧ c.precision ≥ minPrecision ∧
          c.likelihood ≥ minLikelihood
      · rw [if_pos h2] at hc
        rw [Option.some.injEq] at hc
        rw [← hc]
        exact h2
      · rw [if_neg h2] at hc
        cases hc
    · rw [if_neg h1] at hc
      cases hc
  · exact List.Pairwise.sublist (List.take_sublist _ _)
      (List.sorted_insertionSort rankedBefore _)
  · simp only [matchingChords]
    rw [List.length_take]
    exact Nat.min_le_left _ _

/-- Witness for `matching_chords_retention_ranking_truncation`: with
identity roundings, a single perfectly matching candidate clears the
default thresholds (0, 0, 0 after `most_likely_chord` defaulting). -/
theorem matching_chords_retention_ranking_truncation_witness :
    (⟨⟨"Cmaj7", 1, 1, 1, 1, true⟩, 1, 1, 1, 1⟩ :
        ScoredCandidate).cand.recallScore ≥ (0 : ℚ) ∧
    (⟨⟨"Cmaj7", 1, 1, 1, 1, true⟩, 1, 1, 1, 1⟩ :
        ScoredCandidate).cand.precision ≥ (0 : ℚ) ∧
    (⟨⟨"Cmaj7", 1, 1, 1, 1, true⟩, 1, 1, 1, 1⟩ :
        ScoredCandidate).cand.likelihood ≥ (0 : ℚ) :=
  (matching_chords_retention_ranking_truncation id id
      [⟨"Cmaj7", 1, 1, 1, 1, true⟩] true 0 0 0 8).1
    ⟨⟨"Cmaj7", 1, 1, 1, 1, true⟩, 1, 1, 1, 1⟩ (by decide)

end Orpyus
